import Mathlib

/-!
Verification of the CropFresh authentication service.

This file gives a shallow embedding of the parts of the service that the
checked properties talk about, translated from the TypeScript sources:

* a model of the Valkey (Redis-like) key-value store with TTL expiry, used by
  `OtpService` (`src/services/otp-service.ts`) and `LoginLockoutService`
  (`src/services/exotel-service.ts`, second half of the file);
* the `VerifyLoginOtp` RPC handler (`src/grpc/services/auth.ts`);
* the team-management service and its repositories
  (`src/services/team-management-service.ts`,
  `TeamMembershipRepository`, `TeamInvitationRepository`);
* the hauler registration/validation/admin services and repository
  (`HaulerRegistrationService`, `HaulerValidationService`,
  `HaulerAdminService`, `HaulerRepository`);
* the buyer login service (`src/services/buyer-login-service.ts`) and the
  password validator (`src/services/password-validation-service.ts`);
* the temporary agent PIN generator (`generateTemporaryPin`).

Machine integers are modelled as `Nat`/`Int`; wall-clock time is a `Nat`
(seconds); cryptographic hashing (SHA-256, bcrypt) is passed in as an
abstract function parameter, since only equality of digests matters here.
Definitions follow the source; theorems settle the claims.
-/

/-- Values stored in the Valkey key-value store.  Counters (touched by
`INCR`) are numbers, OTP digests are strings; lockout timestamps are stored
as numbers of seconds (the source stores an ISO string and parses it back,
which round-trips to the same instant). -/
inductive VVal where
  | num (n : Nat)
  | str (s : String)
deriving Repr, DecidableEq

/-- One stored key-value entry: the value and its absolute expiry time
(`none` = no TTL).  An entry is visible at time `now` iff `now` is before
the expiry, matching Redis TTL semantics. -/
structure VEntry where
  val : VVal
  expiresAt : Option Nat
deriving Repr, DecidableEq

/-- The key-value store: an association list from keys to entries. -/
abbrev KV := List (String × VEntry)

/-- Raw lookup of an entry, ignoring expiry. -/
def kvLookup : KV → String → Option VEntry
  | [], _ => none
  | (k', e) :: rest, k => if k' = k then some e else kvLookup rest k

/-- Whether an entry is still live (not yet expired) at time `now`. -/
def VEntry.live (e : VEntry) (now : Nat) : Bool :=
  match e.expiresAt with
  | none => true
  | some t => now < t

/-- Model of `valkey.get`: the stored value, or `none` if the key is absent
or its TTL has elapsed. -/
def kvGet (kv : KV) (now : Nat) (k : String) : Option VVal :=
  match kvLookup kv k with
  | some e => if e.live now then some e.val else none
  | none => none

/-- Remove a key. -/
def kvDel : KV → String → KV
  | [], _ => []
  | (k', e) :: rest, k =>
    if k' = k then kvDel rest k else (k', e) :: kvDel rest k

/-- Overwrite a key with a new entry. -/
def kvSet (kv : KV) (k : String) (e : VEntry) : KV :=
  (k, e) :: kvDel kv k

/-- Model of `valkey.incr`: increments a live numeric counter keeping its
TTL; on an absent or expired key it creates the counter at 1 with no TTL. -/
def kvIncr (kv : KV) (now : Nat) (k : String) : Nat × KV :=
  match kvLookup kv k with
  | some e =>
    if e.live now then
      match e.val with
      | .num n => (n + 1, kvSet kv k ⟨.num (n + 1), e.expiresAt⟩)
      | .str _ => (1, kvSet kv k ⟨.num 1, none⟩)
    else (1, kvSet kv k ⟨.num 1, none⟩)
  | none => (1, kvSet kv k ⟨.num 1, none⟩)

/-- Model of `valkey.expire`: sets the TTL of a live key; no-op otherwise. -/
def kvExpire (kv : KV) (now : Nat) (k : String) (ttl : Nat) : KV :=
  match kvLookup kv k with
  | some e => if e.live now then kvSet kv k ⟨e.val, some (now + ttl)⟩ else kv
  | none => kv

/-- Model of `valkey.setex`: stores a value with a TTL. -/
def kvSetex (kv : KV) (now : Nat) (k : String) (ttl : Nat) (v : VVal) : KV :=
  kvSet kv k ⟨v, some (now + ttl)⟩

/-! ### OtpService (src/services/otp-service.ts) -/

/-- Key holding the SHA-256 digest of the current OTP for a phone. -/
def otpKey (phone : String) : String := "otp:farmer:" ++ phone

/-- Key holding the per-phone OTP generation rate counter. -/
def rateKey (phone : String) : String := "otp:rate:" ++ phone

/-- OTP storage TTL (`OTP_TTL_SECONDS`). -/
def OTP_TTL_SECONDS : Nat := 600

/-- Rate-limit window (`RATE_LIMIT_WINDOW_SECONDS`). -/
def RATE_LIMIT_WINDOW_SECONDS : Nat := 600

/-- Maximum OTP generations per window (`MAX_ATTEMPTS_PER_WINDOW`). -/
def MAX_ATTEMPTS_PER_WINDOW : Nat := 3

/-- Result of `OtpService.generateOTP`. -/
structure GenResult where
  otp : Option Nat
  smsSent : Bool
  message : String
deriving Repr, DecidableEq

/-- Model of `OtpService.generateOTP`.  `sha` abstracts SHA-256, `code` is
the value drawn from the CSPRNG (`crypto.randomInt(100000, 999999)`),
`smsEnabled`/`smsOk` abstract the Exotel adapter.  Returns the result and
the updated store. -/
def generateOTP (sha : String → String) (smsEnabled smsOk : Bool)
    (now : Nat) (code : Nat) (phone : String) (kv : KV) : GenResult × KV :=
  let r := kvIncr kv now (rateKey phone)
  let attempts := r.1
  let kv1 := r.2
  let kv2 :=
    if attempts = 1 then kvExpire kv1 now (rateKey phone) RATE_LIMIT_WINDOW_SECONDS
    else kv1
  if attempts > MAX_ATTEMPTS_PER_WINDOW then
    ({ otp := none, smsSent := false,
       message := "Rate limit exceeded. Try again in 10 minutes." }, kv2)
  else
    let kv3 := kvSetex kv2 now (otpKey phone) OTP_TTL_SECONDS (.str (sha (toString code)))
    if smsEnabled then
      if smsOk then
        ({ otp := some code, smsSent := true, message := "OTP sent successfully" }, kv3)
      else
        ({ otp := some code, smsSent := false, message := "SMS failed. OTP stored locally." }, kv3)
    else
      ({ otp := some code, smsSent := false,
         message := "OTP generated (dev mode - check logs)" }, kv3)

/-- Model of `OtpService.verifyOTP`: compare the SHA-256 of the submitted
code with the stored digest; on match delete the key and return true; on
mismatch or missing key return false without touching the store. -/
def verifyOTP (sha : String → String) (now : Nat) (phone otp : String)
    (kv : KV) : Bool × KV :=
  match kvGet kv now (otpKey phone) with
  | none => (false, kv)
  | some (.str storedHash) =>
    if storedHash = sha otp then (true, kvDel kv (otpKey phone)) else (false, kv)
  | some (.num _) => (false, kv)

/-- The counter value `generateOTP` observes at time `now` (the result of
the atomic increment). -/
def genObserved (now : Nat) (phone : String) (kv : KV) : Nat :=
  (kvIncr kv now (rateKey phone)).1

/-- Per-call record kept while running a sequence of `generateOTP` calls:
call time, counter value observed, and the response. -/
structure GenRec where
  time : Nat
  observed : Nat
  otp : Option Nat
  smsSent : Bool
deriving Repr, DecidableEq

/-- Run a sequence of `generateOTP` calls (each given as a time and the
would-be CSPRNG draw) against the store, collecting one record per call. -/
def genRun (sha : String → String) (smsEnabled smsOk : Bool) (phone : String) :
    KV → List (Nat × Nat) → List GenRec × KV
  | kv, [] => ([], kv)
  | kv, (t, code) :: rest =>
    let obs := genObserved t phone kv
    let r := generateOTP sha smsEnabled smsOk t code phone kv
    let tail := genRun sha smsEnabled smsOk phone r.2 rest
    (⟨t, obs, r.1.otp, r.1.smsSent⟩ :: tail.1, tail.2)

/-- Number of successful calls (non-nil OTP) among the records whose time
lies in the window `[lo, hi)`. -/
def successCntIn (recs : List GenRec) (lo hi : Nat) : Nat :=
  (recs.filter (fun r => r.otp.isSome && decide (lo ≤ r.time) && decide (r.time < hi))).length

/-- Run a sequence of `verifyOTP` calls (time and submitted code each),
collecting the boolean outcomes. -/
def verifyRun (sha : String → String) (phone : String) :
    KV → List (Nat × String) → List Bool × KV
  | kv, [] => ([], kv)
  | kv, (t, otp) :: rest =>
    let r := verifyOTP sha t phone otp kv
    let tail := verifyRun sha phone r.2 rest
    (r.1 :: tail.1, tail.2)

/-! ### LoginLockoutService (src/services/exotel-service.ts) -/

/-- Key counting failed login attempts for a phone. -/
def attemptsKey (phone : String) : String := "login:attempts:" ++ phone

/-- Key holding the lockout-until timestamp for a phone. -/
def lockoutKey (phone : String) : String := "login:lockout:" ++ phone

/-- TTL of the failed-attempt counter (`LOGIN_ATTEMPT_TTL_SECONDS`). -/
def LOGIN_ATTEMPT_TTL_SECONDS : Nat := 1800

/-- Failures tolerated before lockout (`MAX_FAILED_ATTEMPTS`). -/
def MAX_FAILED_ATTEMPTS : Nat := 3

/-- Lockout duration (`LOCKOUT_DURATION_SECONDS`). -/
def LOCKOUT_DURATION_SECONDS : Nat := 1800

/-- Result shape of the lockout service (`LockoutStatus`). -/
structure LockoutStatus where
  isLocked : Bool
  lockedUntil : Option Nat
  remainingAttempts : Int
deriving Repr, DecidableEq

/-- Helper corresponding to the tail of `getLockoutStatus`: read the current
attempt count and report the not-locked status. -/
def lockoutNotLocked (now : Nat) (phone : String) (kv : KV) : LockoutStatus × KV :=
  let attempts : Nat :=
    match kvGet kv now (attemptsKey phone) with
    | some (.num n) => n
    | _ => 0
  ({ isLocked := false, lockedUntil := none,
     remainingAttempts := (MAX_FAILED_ATTEMPTS : Int) - (attempts : Int) }, kv)

/-- Model of `LoginLockoutService.getLockoutStatus`.  A live lockout key
whose stored instant is still in the future reports locked; a live lockout
key whose instant has passed is cleaned up together with the attempts
counter; otherwise the remaining-attempt count is reported. -/
def getLockoutStatus (now : Nat) (phone : String) (kv : KV) : LockoutStatus × KV :=
  match kvGet kv now (lockoutKey phone) with
  | some (.num t) =>
    if t > now then
      ({ isLocked := true, lockedUntil := some t, remainingAttempts := 0 }, kv)
    else
      lockoutNotLocked now phone (kvDel (kvDel kv (lockoutKey phone)) (attemptsKey phone))
  | some (.str _) =>
    lockoutNotLocked now phone (kvDel (kvDel kv (lockoutKey phone)) (attemptsKey phone))
  | none => lockoutNotLocked now phone kv

/-- Model of `LoginLockoutService.recordFailedAttempt`: increment the
counter, arm its TTL on the first failure, and set the lockout key once the
count reaches the threshold. -/
def recordFailedAttempt (now : Nat) (phone : String) (kv : KV) : LockoutStatus × KV :=
  let r := kvIncr kv now (attemptsKey phone)
  let attempts := r.1
  let kv2 :=
    if attempts = 1 then kvExpire r.2 now (attemptsKey phone) LOGIN_ATTEMPT_TTL_SECONDS
    else r.2
  if attempts ≥ MAX_FAILED_ATTEMPTS then
    let lockedUntil := now + LOCKOUT_DURATION_SECONDS
    let kv3 := kvSetex kv2 now (lockoutKey phone) LOCKOUT_DURATION_SECONDS (.num lockedUntil)
    ({ isLocked := true, lockedUntil := some lockedUntil, remainingAttempts := 0 }, kv3)
  else
    ({ isLocked := false, lockedUntil := none,
       remainingAttempts := (MAX_FAILED_ATTEMPTS : Int) - (attempts : Int) }, kv2)

/-- Model of `LoginLockoutService.clearFailedAttempts`: delete both keys. -/
def clearFailedAttempts (phone : String) (kv : KV) : KV :=
  kvDel (kvDel kv (attemptsKey phone)) (lockoutKey phone)

/-! ### VerifyLoginOtp RPC handler (src/grpc/services/auth.ts) -/

/-- Outcome of the `VerifyLoginOtp` handler, as surfaced on the wire. -/
inductive VerifyLoginOutcome where
  | invalidArgument
  | accountLocked (lockedUntil : Option Nat)
  | phoneNotRegistered
  | invalidOtp (remainingAttempts : Int)
  | loginOk
deriving Repr, DecidableEq

/-- Model of the `VerifyLoginOtp` handler.  `userFound` abstracts the user
repository lookup (`findByPhoneNumber`); session/JWT issuance after a
successful verification is outside the modelled state. -/
def verifyLoginOtp (sha : String → String) (userFound : Bool) (now : Nat)
    (phone otp : String) (kv : KV) : VerifyLoginOutcome × KV :=
  if phone = "" ∨ otp = "" then (.invalidArgument, kv)
  else
    let s := getLockoutStatus now phone kv
    if s.1.isLocked then (.accountLocked s.1.lockedUntil, s.2)
    else if !userFound then (.phoneNotRegistered, s.2)
    else
      let v := verifyOTP sha now phone otp s.2
      if v.1 then (.loginOk, clearFailedAttempts phone v.2)
      else
        let f := recordFailedAttempt now phone v.2
        if f.1.isLocked then (.accountLocked f.1.lockedUntil, f.2)
        else (.invalidOtp f.1.remainingAttempts, f.2)

/-! ### Team management (src/services/team-management-service.ts and its
repositories) -/

/-- Team roles (`BuyerTeamRole`). -/
inductive BuyerTeamRole where
  | ADMIN
  | PROCUREMENT_MANAGER
  | FINANCE_USER
  | RECEIVING_STAFF
deriving Repr, DecidableEq

/-- Membership status (`TeamMemberStatus`). -/
inductive TeamMemberStatus where
  | ACTIVE
  | INACTIVE
  | PENDING
deriving Repr, DecidableEq

/-- A `TeamMembership` row. -/
structure TeamMembership where
  id : Nat
  buyerOrgId : Nat
  userId : Nat
  role : BuyerTeamRole
  status : TeamMemberStatus
deriving Repr, DecidableEq

/-- A `TeamRoleChange` audit row. -/
structure TeamRoleChange where
  teamMembershipId : Nat
  oldRole : BuyerTeamRole
  newRole : BuyerTeamRole
  changedById : Nat
deriving Repr, DecidableEq

/-- A user row, reduced to what the team flows read. -/
structure UserRow where
  id : Nat
  email : String
deriving Repr, DecidableEq

/-- A `TeamInvitation` row. -/
structure TeamInvitation where
  id : Nat
  buyerOrgId : Nat
  email : String
  mobile : String
  role : BuyerTeamRole
  tokenHash : String
  expiresAt : Nat
  invitedById : Nat
  accepted : Bool
deriving Repr, DecidableEq

/-- The relational state the team flows touch. -/
structure TeamDB where
  users : List UserRow
  memberships : List TeamMembership
  invitations : List TeamInvitation
  roleChanges : List TeamRoleChange
deriving Repr, DecidableEq

/-- Model of `TeamMembershipRepository.findByUserAndOrg` (lookup on the
unique `(buyerOrgId, userId)` pair, any status). -/
def findByUserAndOrg (ms : List TeamMembership) (userId buyerOrgId : Nat) :
    Option TeamMembership :=
  ms.find? (fun m => m.userId = userId ∧ m.buyerOrgId = buyerOrgId)

/-- Model of `TeamMembershipRepository.countActiveAdmins`. -/
def countActiveAdmins (ms : List TeamMembership) (buyerOrgId : Nat) : Nat :=
  (ms.filter (fun m =>
    m.buyerOrgId = buyerOrgId ∧ m.role = .ADMIN ∧ m.status = .ACTIVE)).length

/-- Model of `TeamMembershipRepository.isLastAdmin`: the user's membership
must exist with role ADMIN (any status) and the organization must have
exactly one ACTIVE ADMIN. -/
def isLastAdmin (ms : List TeamMembership) (userId buyerOrgId : Nat) : Bool :=
  match findByUserAndOrg ms userId buyerOrgId with
  | none => false
  | some m =>
    if m.role = BuyerTeamRole.ADMIN then countActiveAdmins ms buyerOrgId = 1
    else false

/-- Model of `TeamMembershipRepository.updateRole`: update the row with the
given id and record an audit row; `none` when the row is missing. -/
def updateRole (ms : List TeamMembership) (id : Nat)
    (newRole : BuyerTeamRole) (changedById : Nat) :
    Option (List TeamMembership × TeamRoleChange) :=
  match ms.find? (fun m => m.id = id) with
  | none => none
  | some existing =>
    some (ms.map (fun m => if m.id = id then { m with role := newRole } else m),
      ⟨id, existing.role, newRole, changedById⟩)

/-- Model of `TeamMembershipRepository.deactivate`: set the row's status to
INACTIVE. -/
def deactivateRepo (ms : List TeamMembership) (id : Nat) : List TeamMembership :=
  ms.map (fun m => if m.id = id then { m with status := TeamMemberStatus.INACTIVE } else m)

/-- Model of `TeamMembershipRepository.softDelete`: delete the membership
row keyed by `(buyerOrgId, userId)`. -/
def softDeleteRepo (ms : List TeamMembership) (userId buyerOrgId : Nat) :
    List TeamMembership :=
  ms.filter (fun m => ¬ (m.userId = userId ∧ m.buyerOrgId = buyerOrgId))

/-- Errors and results of the team-management service operations. -/
inductive TeamOpResult where
  | unauthorized
  | memberNotFound
  | lastAdmin
  | selfAction
  | internalError
  | roleUpdated (oldRole newRole : BuyerTeamRole)
  | deactivated
  | deleted
deriving Repr, DecidableEq

/-- Model of `TeamManagementService.updateMemberRole`.  The last-admin
guard runs only when the caller targets their own membership. -/
def updateMemberRole (db : TeamDB) (buyerOrgId memberId : Nat)
    (newRole : BuyerTeamRole) (changedById : Nat) : TeamOpResult × TeamDB :=
  match findByUserAndOrg db.memberships changedById buyerOrgId with
  | none => (.unauthorized, db)
  | some changer =>
    if changer.role ≠ BuyerTeamRole.ADMIN then (.unauthorized, db)
    else
      match findByUserAndOrg db.memberships memberId buyerOrgId with
      | none => (.memberNotFound, db)
      | some target =>
        if memberId = changedById ∧
            target.role = BuyerTeamRole.ADMIN ∧ newRole ≠ BuyerTeamRole.ADMIN ∧
            isLastAdmin db.memberships memberId buyerOrgId then
          (.lastAdmin, db)
        else
          match updateRole db.memberships target.id newRole changedById with
          | none => (.internalError, db)
          | some (ms', audit) =>
            (.roleUpdated audit.oldRole audit.newRole,
              { db with memberships := ms', roleChanges := db.roleChanges ++ [audit] })

/-- Model of `TeamManagementService.deactivateMember`. -/
def deactivateMember (db : TeamDB) (buyerOrgId memberId deactivatedById : Nat) :
    TeamOpResult × TeamDB :=
  match findByUserAndOrg db.memberships deactivatedById buyerOrgId with
  | none => (.unauthorized, db)
  | some requester =>
    if requester.role ≠ BuyerTeamRole.ADMIN then (.unauthorized, db)
    else if memberId = deactivatedById then (.selfAction, db)
    else
      match findByUserAndOrg db.memberships memberId buyerOrgId with
      | none => (.memberNotFound, db)
      | some membership =>
        if membership.role = BuyerTeamRole.ADMIN ∧
            isLastAdmin db.memberships memberId buyerOrgId then
          (.lastAdmin, db)
        else
          (.deactivated, { db with memberships := deactivateRepo db.memberships membership.id })

/-- Model of `TeamManagementService.deleteMember`. -/
def deleteMember (db : TeamDB) (buyerOrgId memberId deletedById : Nat) :
    TeamOpResult × TeamDB :=
  match findByUserAndOrg db.memberships deletedById buyerOrgId with
  | none => (.unauthorized, db)
  | some requester =>
    if requester.role ≠ BuyerTeamRole.ADMIN then (.unauthorized, db)
    else if memberId = deletedById then (.selfAction, db)
    else
      match findByUserAndOrg db.memberships memberId buyerOrgId with
      | none => (.memberNotFound, db)
      | some membership =>
        if membership.role = BuyerTeamRole.ADMIN ∧
            isLastAdmin db.memberships memberId buyerOrgId then
          (.lastAdmin, db)
        else
          (.deleted, { db with memberships := softDeleteRepo db.memberships memberId buyerOrgId })

/-- Model of `TeamInvitationRepository.findByEmail`: pending (unaccepted)
invitation for `(buyerOrgId, email)`. -/
def invFindByEmail (invs : List TeamInvitation) (buyerOrgId : Nat) (email : String) :
    Option TeamInvitation :=
  invs.find? (fun i => i.buyerOrgId = buyerOrgId ∧ i.email = email ∧ i.accepted = false)

/-- Model of `TeamInvitationRepository.isDuplicateEmail`: an existing
membership whose user has the email, or a pending invitation. -/
def isDuplicateEmail (db : TeamDB) (buyerOrgId : Nat) (email : String) : Bool :=
  let existingMember := db.memberships.find? (fun m =>
    m.buyerOrgId = buyerOrgId ∧
      db.users.any (fun u => u.id = m.userId ∧ u.email = email))
  match existingMember with
  | some _ => true
  | none => (invFindByEmail db.invitations buyerOrgId email).isSome

/-- Outcome of `inviteTeamMember`. -/
inductive InviteResult where
  | duplicateEmail
  | invalidRole
  | unauthorized
  | invited (inv : TeamInvitation)
deriving Repr, DecidableEq

/-- Model of `TeamManagementService.inviteTeamMember`.  The duplicate-email
check runs before the inviter authorization check, which tests only the
role of the inviter's membership, not its status.  `invId`/`tokenHash`
abstract the generated row id and the bcrypt digest of the random token;
the expiry is 24 hours from `now`. -/
def inviteTeamMember (db : TeamDB) (now invId : Nat) (tokenHash : String)
    (buyerOrgId : Nat) (email mobile : String) (role : BuyerTeamRole)
    (invitedById : Nat) : InviteResult × TeamDB :=
  if isDuplicateEmail db buyerOrgId email then (.duplicateEmail, db)
  else if ¬ ([BuyerTeamRole.ADMIN, .PROCUREMENT_MANAGER, .FINANCE_USER,
      .RECEIVING_STAFF].contains role) then (.invalidRole, db)
  else
    match findByUserAndOrg db.memberships invitedById buyerOrgId with
    | none => (.unauthorized, db)
    | some inviter =>
      if inviter.role ≠ BuyerTeamRole.ADMIN then (.unauthorized, db)
      else
        let inv : TeamInvitation :=
          ⟨invId, buyerOrgId, email, mobile, role, tokenHash, now + 24 * 3600,
            invitedById, false⟩
        (.invited inv, { db with invitations := db.invitations ++ [inv] })

/-! ### HaulerValidationService (src/services/hauler-validation-service.ts) -/

/-- ASCII uppercase letter, as matched by the `[A-Z]` character class. -/
def isUpperAZ (c : Char) : Bool := decide ('A' ≤ c) && decide (c ≤ 'Z')

/-- Model of the JavaScript `String.prototype.trim`: strip whitespace from
both ends. -/
def jsTrim (s : String) : String :=
  String.mk (((s.data.dropWhile Char.isWhitespace).reverse.dropWhile
    Char.isWhitespace).reverse)

/-- Model of the JavaScript `String.prototype.split` on a single-character
separator: `"a--b".split('-') = ["a", "", "b"]`. -/
def splitChar (sep : Char) : List Char → List (List Char)
  | [] => [[]]
  | c :: rest =>
    if c = sep then [] :: splitChar sep rest
    else
      match splitChar sep rest with
      | [] => [[c]]
      | g :: gs => (c :: g) :: gs

/-- Model of the JavaScript `String.prototype.startsWith`. -/
def jsStartsWith (s pre : String) : Bool :=
  s.data.take pre.data.length = pre.data

/-- ASCII digit, as matched by `\d` / `[0-9]`. -/
def isDigit09 (c : Char) : Bool := decide ('0' ≤ c) && decide (c ≤ '9')

/-- Match a list of fixed-length segments against the whole character list,
one `(length, class)` pair per segment.  This renders the anchored regexes
of the source, which are concatenations of bounded character classes. -/
def matchSegs : List (Nat × (Char → Bool)) → List Char → Bool
  | [], cs => cs.isEmpty
  | (n, p) :: rest, cs =>
    decide ((cs.take n).length = n) && (cs.take n).all p && matchSegs rest (cs.drop n)

/-- Replace each maximal run of characters satisfying `p` by the single
character `repl` (the `replace(/X+/g, c)` idiom); `inRun` tracks whether
the previous character was part of a run. -/
def collapseRunsAux (p : Char → Bool) (repl : Char) : List Char → Bool → List Char
  | [], _ => []
  | c :: rest, inRun =>
    if p c then
      if inRun then collapseRunsAux p repl rest true
      else repl :: collapseRunsAux p repl rest true
    else c :: collapseRunsAux p repl rest false

/-- Replace maximal runs satisfying `p` by a single `repl`. -/
def collapseRuns (p : Char → Bool) (repl : Char) (cs : List Char) : List Char :=
  collapseRunsAux p repl cs false

/-- Result record returned by the hauler validators (`ValidationResult`). -/
structure ValidationResult where
  valid : Bool
  message : String
  normalizedValue : Option String := none
deriving Repr, DecidableEq

/-- Vehicle types (`VehicleType`). -/
inductive VehicleTypeE where
  | BIKE
  | AUTO
  | PICKUP_VAN
  | SMALL_TRUCK
deriving Repr, DecidableEq

/-- Row of the vehicle eligibility table (`VehicleEligibilityRule`). -/
structure VehicleEligibilityRule where
  type : VehicleTypeE
  maxCapacityKg : Int
  maxRadiusKm : Int
  description : String
deriving Repr, DecidableEq

/-- The authoritative eligibility table (`VEHICLE_ELIGIBILITY_RULES`). -/
def VEHICLE_ELIGIBILITY_RULES : List VehicleEligibilityRule :=
  [⟨.BIKE, 20, 10, "Motorcycle/Scooter"⟩,
   ⟨.AUTO, 100, 30, "Auto-rickshaw/Three-wheeler"⟩,
   ⟨.PICKUP_VAN, 500, 80, "Pickup Van/Tempo"⟩,
   ⟨.SMALL_TRUCK, 2000, 150, "Small Truck/Mini Lorry"⟩]

/-- Normalization used by `validateVehicleNumber`: uppercase, whitespace
runs to hyphens, dots to hyphens, hyphen runs collapsed, then trim. -/
def normalizeVehicleNumber (input : String) : String :=
  (String.mk
    (collapseRuns (fun c => c = '-') '-'
      ((collapseRuns Char.isWhitespace '-' (input.data.map Char.toUpper)).map
        (fun c => if c = '.' then '-' else c))))

/-- The anchored regex `^[A-Z]{2}-\d{2}-[A-Z]{1,2}-\d{4}$`. -/
def vehicleNumberPattern (cs : List Char) : Bool :=
  matchSegs [(2, isUpperAZ), (1, fun c => c = '-'), (2, isDigit09),
    (1, fun c => c = '-'), (1, isUpperAZ), (1, fun c => c = '-'), (4, isDigit09)] cs ||
  matchSegs [(2, isUpperAZ), (1, fun c => c = '-'), (2, isDigit09),
    (1, fun c => c = '-'), (2, isUpperAZ), (1, fun c => c = '-'), (4, isDigit09)] cs

/-- Model of `validateVehicleNumber`. -/
def validateVehicleNumber (vehicleNumber : String) : ValidationResult :=
  if (jsTrim vehicleNumber).length = 0 then
    { valid := false, message := "Vehicle number is required" }
  else
    let normalized := normalizeVehicleNumber vehicleNumber
    if ¬ vehicleNumberPattern normalized.data then
      { valid := false, message := "Enter valid format: KA-01-AB-1234" }
    else
      { valid := true, message := "Valid vehicle number", normalizedValue := some normalized }

/-- Normalization used by `validateDLNumber`: uppercase and strip
whitespace. -/
def normalizeDLNumber (input : String) : String :=
  String.mk ((input.data.map Char.toUpper).filter (fun c => ¬ c.isWhitespace))

/-- The four `DL_NUMBER_PATTERNS` of the source, in order:
`^[A-Z]{2}\d{2}-\d{4}-\d{7}$`, `^[A-Z]{2}-\d{13}$`,
`^[A-Z]{2}\d{2}\s?\d{11}$` and `^[A-Z]{2}\d{2}-\d{4}-\d{6,7}$`. -/
def dlNumberPatterns (cs : List Char) : Bool :=
  matchSegs [(2, isUpperAZ), (2, isDigit09), (1, fun c => c = '-'), (4, isDigit09),
    (1, fun c => c = '-'), (7, isDigit09)] cs ||
  matchSegs [(2, isUpperAZ), (1, fun c => c = '-'), (13, isDigit09)] cs ||
  (matchSegs [(2, isUpperAZ), (2, isDigit09), (11, isDigit09)] cs ||
    matchSegs [(2, isUpperAZ), (2, isDigit09), (1, Char.isWhitespace), (11, isDigit09)] cs) ||
  (matchSegs [(2, isUpperAZ), (2, isDigit09), (1, fun c => c = '-'), (4, isDigit09),
      (1, fun c => c = '-'), (6, isDigit09)] cs ||
    matchSegs [(2, isUpperAZ), (2, isDigit09), (1, fun c => c = '-'), (4, isDigit09),
      (1, fun c => c = '-'), (7, isDigit09)] cs)

/-- Model of `validateDLNumber`. -/
def validateDLNumber (dlNumber : String) : ValidationResult :=
  if (jsTrim dlNumber).length = 0 then
    { valid := false, message := "Driving License number is required" }
  else
    let normalized := normalizeDLNumber dlNumber
    if ¬ dlNumberPatterns normalized.data then
      { valid := false, message := "Enter valid Driving License number" }
    else
      { valid := true, message := "Valid DL number", normalizedValue := some normalized }

/-- Digits-prefix value used by `parseInt` (base 10). -/
def digitsToNat (ds : List Char) : Nat :=
  ds.foldl (fun a c => a * 10 + (c.toNat - ('0').toNat)) 0

/-- Model of JavaScript `parseInt(s, 10)`: skip leading whitespace, read an
optional sign and a non-empty digit prefix; `none` renders `NaN`. -/
def parseIntJS (s : String) : Option Int :=
  let cs := s.data.dropWhile Char.isWhitespace
  let core : List Char → Option Nat := fun l =>
    let ds := l.takeWhile isDigit09
    if ds.isEmpty then none else some (digitsToNat ds)
  match cs with
  | '-' :: rest => (core rest).map (fun n => -(n : Int))
  | '+' :: rest => (core rest).map (fun n => (n : Int))
  | _ => (core cs).map (fun n => (n : Int))

/-- Leap-year rule of the proleptic Gregorian calendar used by JS `Date`. -/
def isLeapYear (y : Int) : Bool :=
  (y % 4 = 0 && y % 100 ≠ 0) || y % 400 = 0

/-- Days in month `m` (1-based) of year `y`. -/
def daysInMonth (y m : Int) : Int :=
  if m = 2 then (if isLeapYear y then 29 else 28)
  else if m = 4 ∨ m = 6 ∨ m = 9 ∨ m = 11 then 30
  else 31

/-- Date-only lexicographic comparison, matching comparison of two JS
`Date`s at local midnight. -/
def dateLE (y1 m1 d1 y2 m2 d2 : Int) : Bool :=
  if y1 ≠ y2 then y1 < y2
  else if m1 ≠ m2 then m1 < m2
  else d1 ≤ d2

/-- Model of `validateDLExpiry`: parse `YYYY-MM-DD`, require a real
calendar date, and require it strictly after `today` (given as year, month
1-12, day).  The round-trip check `expiry.getFullYear() === year && ...`
of the source amounts to month/day being in range, with the extra JS quirk
that constructor years 0–99 are remapped to 1900–1999 and therefore never
round-trip. -/
def validateDLExpiry (todayY todayM todayD : Int) (expiryDate : String) : ValidationResult :=
  if (jsTrim expiryDate).length = 0 then
    { valid := false, message := "License expiry date is required" }
  else
    let parts := (splitChar '-' (jsTrim expiryDate).data).map String.mk
    if parts.length ≠ 3 then
      { valid := false, message := "Invalid date format. Use YYYY-MM-DD" }
    else
      match parseIntJS (parts.getD 0 ""), parseIntJS (parts.getD 1 ""),
          parseIntJS (parts.getD 2 "") with
      | some year, some month, some day =>
        if 0 ≤ year ∧ year ≤ 99 then { valid := false, message := "Invalid date" }
        else if ¬ (1 ≤ month ∧ month ≤ 12 ∧ 1 ≤ day ∧ day ≤ daysInMonth year month) then
          { valid := false, message := "Invalid date" }
        else if dateLE year month day todayY todayM todayD then
          { valid := false, message := "License expired. Please renew before registration." }
        else
          { valid := true, message := "Valid expiry date", normalizedValue := some expiryDate }
      | _, _, _ => { valid := false, message := "Invalid date format" }

/-- Model of `validatePayloadCapacity`. -/
def validatePayloadCapacity (vehicleType : VehicleTypeE) (capacityKg : Int) : ValidationResult :=
  if capacityKg ≤ 0 then
    { valid := false, message := "Payload capacity must be greater than 0" }
  else
    match VEHICLE_ELIGIBILITY_RULES.find? (fun r => r.type = vehicleType) with
    | none => { valid := false, message := "Invalid vehicle type" }
    | some rule =>
      if capacityKg > rule.maxCapacityKg then
        { valid := false, message := "Capacity exceeds the limit for this vehicle type" }
      else { valid := true, message := "Valid capacity" }

/-- Model of `validateVehicleType`: uppercase/trim, then membership in the
closed list; also yields the typed value. -/
def validateVehicleType (vehicleType : String) : ValidationResult × Option VehicleTypeE :=
  let normalized := jsTrim (String.mk (vehicleType.data.map Char.toUpper))
  let typed : Option VehicleTypeE :=
    if normalized = "BIKE" then some .BIKE
    else if normalized = "AUTO" then some .AUTO
    else if normalized = "PICKUP_VAN" then some .PICKUP_VAN
    else if normalized = "SMALL_TRUCK" then some .SMALL_TRUCK
    else none
  match typed with
  | none => ({ valid := false, message := "Invalid vehicle type" }, none)
  | some t =>
    ({ valid := true, message := "Valid vehicle type", normalizedValue := some normalized },
      some t)

/-! ### HaulerRepository and HaulerRegistrationService
(src: `hauler-repository.ts`, `hauler-registration-service.ts`) -/

/-- Hauler verification status (`HaulerStatus`). -/
inductive HaulerStatus where
  | IN_PROGRESS
  | PENDING_VERIFICATION
  | ACTIVE
  | REJECTED
deriving Repr, DecidableEq

/-- A `HaulerProfile` row (the fields the modelled flows touch). -/
structure HaulerProfileRec where
  id : Nat
  userId : Nat
  vehicleType : VehicleTypeE
  vehicleNumber : String
  payloadCapacityKg : Int
  dlNumber : String
  dlExpiry : String
  currentStep : Nat
  stepCompleted : Bool
  registrationToken : Option String
  verificationStatus : HaulerStatus
  verifiedById : Option Nat
  verifiedAt : Option Nat
  rejectionReason : Option String
deriving Repr, DecidableEq

/-- A `HaulerDocument` row. -/
structure HaulerDocRec where
  haulerId : Nat
  docType : String
  storageUrl : String
  fileName : String
deriving Repr, DecidableEq

/-- A user row as the hauler flows read it (`{ id, phone, name }`). -/
structure HaulerUserRec where
  id : Nat
  phone : String
  name : String
deriving Repr, DecidableEq

/-- State touched by the hauler registration and admin flows. -/
structure HaulerDB where
  profiles : List HaulerProfileRec
  documents : List HaulerDocRec
  users : List HaulerUserRec
deriving Repr, DecidableEq

/-- Model of `HaulerRepository.findByRegistrationToken`. -/
def findByRegistrationToken (db : HaulerDB) (token : String) : Option HaulerProfileRec :=
  db.profiles.find? (fun p => p.registrationToken = some token)

/-- Model of `HaulerRepository.vehicleNumberExists` (placeholder rows whose
number starts with `TEMP-` are excluded). -/
def vehicleNumberExists (db : HaulerDB) (vehicleNumber : String) : Bool :=
  db.profiles.any (fun p =>
    p.vehicleNumber = vehicleNumber && !(jsStartsWith p.vehicleNumber "TEMP-"))

/-- Model of `HaulerRepository.updateVehicleInfo`: set the vehicle fields
and `currentStep := 2` on the row with the given id. -/
def updateVehicleInfo (db : HaulerDB) (haulerId : Nat) (vehicleType : VehicleTypeE)
    (vehicleNumber : String) (payloadCapacityKg : Int) : HaulerDB :=
  { db with profiles := db.profiles.map (fun p =>
      if p.id = haulerId then
        { p with
          vehicleType := vehicleType
          vehicleNumber := vehicleNumber
          payloadCapacityKg := payloadCapacityKg
          currentStep := 2 }
      else p) }

/-- Model of `HaulerRepository.updateLicenseInfo`: set the DL fields and
`currentStep := 3` on the row with the given id. -/
def updateLicenseInfo (db : HaulerDB) (haulerId : Nat) (dlNumber dlExpiry : String) :
    HaulerDB :=
  { db with profiles := db.profiles.map (fun p =>
      if p.id = haulerId then
        { p with
          dlNumber := dlNumber
          dlExpiry := dlExpiry
          currentStep := 3 }
      else p) }

/-- Model of `HaulerRepository.addDocument`. -/
def addDocument (db : HaulerDB) (doc : HaulerDocRec) : HaulerDB :=
  { db with documents := db.documents ++ [doc] }

/-- Request of `step2VehicleInfo` (`Step2Request`). -/
structure Step2Request where
  registrationToken : String
  vehicleType : String
  vehicleNumber : String
  payloadCapacityKg : Int
  photoFrontUrl : String
  photoSideUrl : String
  photoOtherUrls : List String
deriving Repr, DecidableEq

/-- Request of `step3LicenseInfo` (`Step3Request`). -/
structure Step3Request where
  registrationToken : String
  dlNumber : String
  dlExpiry : String
  dlFrontUrl : String
  dlBackUrl : String
deriving Repr, DecidableEq

/-- Response of the step handlers (`StepResponse`). -/
structure StepResponse where
  success : Bool
  message : String
  stepCompleted : Option Nat := none
deriving Repr, DecidableEq

/-- Model of the private `addVehicleDocuments` helper: front and side
photos plus at most two additional photos. -/
def addVehicleDocuments (db : HaulerDB) (haulerId : Nat) (req : Step2Request) : HaulerDB :=
  let db1 := addDocument db ⟨haulerId, "VEHICLE_PHOTO_FRONT", req.photoFrontUrl, "vehicle_front.jpg"⟩
  let db2 := addDocument db1 ⟨haulerId, "VEHICLE_PHOTO_SIDE", req.photoSideUrl, "vehicle_side.jpg"⟩
  (req.photoOtherUrls.take 2).foldl
    (fun acc url => addDocument acc ⟨haulerId, "VEHICLE_PHOTO_OTHER", url, "vehicle_other.jpg"⟩)
    db2

/-- Model of `HaulerRegistrationService.step2VehicleInfo`.  Note that the
profile's `currentStep` is never consulted. -/
def step2VehicleInfo (db : HaulerDB) (req : Step2Request) : StepResponse × HaulerDB :=
  match findByRegistrationToken db req.registrationToken with
  | none => ({ success := false, message := "Registration session not found" }, db)
  | some profile =>
    let typeResult := validateVehicleType req.vehicleType
    if ¬ typeResult.1.valid then
      ({ success := false, message := typeResult.1.message }, db)
    else
      let vehicleResult := validateVehicleNumber req.vehicleNumber
      if ¬ vehicleResult.valid then
        ({ success := false, message := vehicleResult.message }, db)
      else
        let normalized := vehicleResult.normalizedValue.getD ""
        if vehicleNumberExists db normalized then
          ({ success := false, message := "Vehicle already registered" }, db)
        else
          let typed := typeResult.2.getD VehicleTypeE.BIKE
          let capacityResult := validatePayloadCapacity typed req.payloadCapacityKg
          if ¬ capacityResult.valid then
            ({ success := false, message := capacityResult.message }, db)
          else if req.photoFrontUrl = "" ∨ req.photoSideUrl = "" then
            ({ success := false, message := "Front and side vehicle photos are required" }, db)
          else
            let db1 := updateVehicleInfo db profile.id typed normalized req.payloadCapacityKg
            let db2 := addVehicleDocuments db1 profile.id req
            ({ success := true, message := "Vehicle details saved. Continue to license.",
               stepCompleted := some 2 }, db2)

/-- Model of the private `addLicenseDocuments` helper. -/
def addLicenseDocuments (db : HaulerDB) (haulerId : Nat) (req : Step3Request) : HaulerDB :=
  addDocument (addDocument db ⟨haulerId, "DL_FRONT", req.dlFrontUrl, "dl_front.jpg"⟩)
    ⟨haulerId, "DL_BACK", req.dlBackUrl, "dl_back.jpg"⟩

/-- Model of `HaulerRegistrationService.step3LicenseInfo`.  As with step 2,
the profile's `currentStep` is never consulted: the handler only resolves
the token, validates the inputs, and writes `currentStep := 3`. -/
def step3LicenseInfo (todayY todayM todayD : Int) (db : HaulerDB) (req : Step3Request) :
    StepResponse × HaulerDB :=
  match findByRegistrationToken db req.registrationToken with
  | none => ({ success := false, message := "Registration session not found" }, db)
  | some profile =>
    let dlResult := validateDLNumber req.dlNumber
    if ¬ dlResult.valid then
      ({ success := false, message := dlResult.message }, db)
    else
      let expiryResult := validateDLExpiry todayY todayM todayD req.dlExpiry
      if ¬ expiryResult.valid then
        ({ success := false, message := expiryResult.message }, db)
      else if req.dlFrontUrl = "" ∨ req.dlBackUrl = "" then
        ({ success := false, message := "DL front and back photos are required" }, db)
      else
        let db1 := updateLicenseInfo db profile.id (dlResult.normalizedValue.getD "") req.dlExpiry
        let db2 := addLicenseDocuments db1 profile.id req
        ({ success := true, message := "License details saved. Continue to payment.",
           stepCompleted := some 3 }, db2)

/-! ### HaulerAdminService and the admin repository paths
(src: `hauler-admin-service.ts`, `hauler-repository.ts`) -/

/-- Model of `HaulerAdminService.maskDLNumber`: strings longer than 6
characters are rendered as first two characters, one asterisk per hidden
character, and the last four; shorter strings pass through unchanged. -/
def maskDLNumber (dlNumber : String) : String :=
  if dlNumber.length ≤ 6 then dlNumber
  else
    String.mk (dlNumber.data.take 2) ++
      String.mk (List.replicate (dlNumber.length - 6) '*') ++
      String.mk (dlNumber.data.drop (dlNumber.length - 4))

/-- Projection built by `getPendingVerifications` for one pending row
(`PendingHauler`): the DL number is masked for display, storage stays in
the clear. -/
structure PendingHauler where
  haulerId : Nat
  name : String
  phone : String
  vehicleNumber : String
  dlNumber : String
deriving Repr, DecidableEq

/-- The per-row transformation of `getPendingVerifications` (the `map` over
repository results). -/
def toPendingHauler (db : HaulerDB) (h : HaulerProfileRec) : PendingHauler :=
  let user := db.users.find? (fun u => u.id = h.userId)
  { haulerId := h.id
    name := (user.map (fun u => u.name)).getD "Unknown"
    phone := (user.map (fun u => u.phone)).getD ""
    vehicleNumber := h.vehicleNumber
    dlNumber := maskDLNumber h.dlNumber }

/-- Model of `HaulerRepository.approveHauler`: unconditional update of the
row with the given id (no check of the current verification status);
`none` when the row does not exist (Prisma error `P2025`). -/
def repoApproveHauler (db : HaulerDB) (now : Nat) (haulerId verifiedById : Nat) :
    Option (HaulerProfileRec × HaulerDB) :=
  match db.profiles.find? (fun p => p.id = haulerId) with
  | none => none
  | some p =>
    let p' := { p with
      verificationStatus := HaulerStatus.ACTIVE
      verifiedById := some verifiedById
      verifiedAt := some now
      rejectionReason := none }
    some (p', { db with profiles := db.profiles.map (fun q => if q.id = haulerId then p' else q) })

/-- Model of `HaulerRepository.rejectHauler`: unconditional update. -/
def repoRejectHauler (db : HaulerDB) (now : Nat) (haulerId verifiedById : Nat)
    (reason : String) : Option (HaulerProfileRec × HaulerDB) :=
  match db.profiles.find? (fun p => p.id = haulerId) with
  | none => none
  | some p =>
    let p' := { p with
      verificationStatus := HaulerStatus.REJECTED
      verifiedById := some verifiedById
      verifiedAt := some now
      rejectionReason := some reason }
    some (p', { db with profiles := db.profiles.map (fun q => if q.id = haulerId then p' else q) })

/-- Verification action (`'APPROVE' | 'REJECT'`). -/
inductive VerifyAction where
  | APPROVE
  | REJECT
deriving Repr, DecidableEq

/-- Response of `verifyHauler` (`VerifyHaulerResponse`). -/
structure VerifyHaulerResponse where
  success : Bool
  message : String
  newStatus : Option String := none
deriving Repr, DecidableEq

/-- Best-effort SMS dispatched by the admin service: recipient and text. -/
structure SmsEvent where
  phone : String
  text : String
deriving Repr, DecidableEq

/-- Model of `HaulerAdminService.verifyHauler` (with its private
`approveHauler`/`rejectHauler` helpers).  The rejection reason is `""`
when absent.  Returns the response, the new state, and the notification
SMS events produced by the call.  There is no check of the profile's
current verification status anywhere on this path. -/
def verifyHauler (db : HaulerDB) (now : Nat) (haulerIdStr : String)
    (action : VerifyAction) (rejectionReason : String) (verifiedByUserId : Nat) :
    VerifyHaulerResponse × HaulerDB × List SmsEvent :=
  match parseIntJS haulerIdStr with
  | none => ({ success := false, message := "Invalid hauler ID" }, db, [])
  | some haulerId =>
    if action = VerifyAction.REJECT ∧ (jsTrim rejectionReason).length = 0 then
      ({ success := false, message := "Rejection reason is required" }, db, [])
    else
      match action with
      | .APPROVE =>
        match repoApproveHauler db now haulerId.toNat verifiedByUserId with
        | none =>
          ({ success := false, message := "Verification failed. Please try again." }, db, [])
        | some (p', db') =>
          let sms : List SmsEvent :=
            match db'.users.find? (fun u => u.id = p'.userId) with
            | some u => [⟨u.phone, "Congratulations " ++ u.name ++
                "! Your CropFresh Hauler account is now active."⟩]
            | none => []
          ({ success := true, message := "Hauler approved successfully",
             newStatus := some "ACTIVE" }, db', sms)
      | .REJECT =>
        match repoRejectHauler db now haulerId.toNat verifiedByUserId rejectionReason with
        | none =>
          ({ success := false, message := "Verification failed. Please try again." }, db, [])
        | some (p', db') =>
          let sms : List SmsEvent :=
            match db'.users.find? (fun u => u.id = p'.userId) with
            | some u => [⟨u.phone, "Your CropFresh Hauler registration was not approved. Reason: " ++
                rejectionReason⟩]
            | none => []
          ({ success := true, message := "Hauler registration rejected",
             newStatus := some "REJECTED" }, db', sms)

/-! ### Temporary agent PIN (pin-validator, `generateTemporaryPin`) -/

/-- Model of `generateTemporaryPin`: the CSPRNG draw is a 32-bit unsigned
integer `seed` (`crypto.randomBytes(4).readUInt32BE(0)`), mapped by
`100000 + (seed % 900000)`. -/
def generateTemporaryPin (seed : Nat) : Nat :=
  100000 + seed % 900000

/-- Number of 32-bit seeds mapped to a given PIN value. -/
def pinPreimageCount (pin : Nat) : Nat :=
  ((Finset.range (2 ^ 32)).filter (fun s => generateTemporaryPin s = pin)).card

/-! ### PasswordValidationService (src/services/password-validation-service.ts) -/

/-- The special characters accepted by the password policy, the character
class of the source regex (braces written via their code points). -/
def pwSpecialChars : List Char :=
  ['!', '@', '#', '$', '%', '^', '&', '*', '(', ')', ',', '.', '?', '\"', ':',
    Char.ofNat 123, Char.ofNat 125, '|', '<', '>']

/-- Result of `validatePassword` (`PasswordValidationResult`); the strength
label is one of `"weak"`, `"medium"`, `"strong"`. -/
structure PasswordValidationResult where
  isValid : Bool
  errors : List String
  strength : String
deriving Repr, DecidableEq

/-- Model of `PasswordValidationService.validatePassword`. -/
def validatePassword (password : String) : PasswordValidationResult :=
  let errors : List String :=
    (if password.length < 8 then ["Password must be at least 8 characters"] else []) ++
    (if ¬ password.data.any isUpperAZ then
      ["Password must contain at least one uppercase letter"] else []) ++
    (if ¬ password.data.any (fun c => decide ('a' ≤ c) && decide (c ≤ 'z')) then
      ["Password must contain at least one lowercase letter"] else []) ++
    (if ¬ password.data.any isDigit09 then
      ["Password must contain at least one number"] else []) ++
    (if ¬ password.data.any (fun c => pwSpecialChars.contains c) then
      ["Password must contain at least one special character"] else [])
  let strength : String :=
    if errors.length ≥ 3 then "weak"
    else if errors.length ≥ 1 then "medium"
    else "strong"
  { isValid := errors.length = 0, errors := errors, strength := strength }

/-! ### BuyerLoginService.resetPassword (src/services/buyer-login-service.ts) -/

/-- A user row as the buyer login flow reads it. -/
structure BuyerUserRow where
  id : Nat
  passwordHash : Option String
  loginAttempts : Nat
  lockedUntil : Option Nat
deriving Repr, DecidableEq

/-- A `Session` row. -/
structure SessionRow where
  userId : Nat
  tokenHash : String
  refreshToken : String
  expiresAt : Nat
  deletedAt : Option Nat
deriving Repr, DecidableEq

/-- A `PasswordResetToken` row. -/
structure ResetTokenRow where
  id : Nat
  userId : Nat
  tokenHash : String
  expiresAt : Nat
  usedAt : Option Nat
  createdAt : Nat
deriving Repr, DecidableEq

/-- The relational state touched by the buyer login flow. -/
structure AuthDB where
  users : List BuyerUserRow
  sessions : List SessionRow
  resetTokens : List ResetTokenRow
deriving Repr, DecidableEq

/-- Insert into a list kept in descending `createdAt` order. -/
def insertByCreatedDesc (rt : ResetTokenRow) : List ResetTokenRow → List ResetTokenRow
  | [] => [rt]
  | x :: xs =>
    if rt.createdAt ≥ x.createdAt then rt :: x :: xs else x :: insertByCreatedDesc rt xs

/-- Sort reset-token rows by `createdAt` descending (the `ORDER BY
created_at DESC` of the candidate query). -/
def sortByCreatedDesc (l : List ResetTokenRow) : List ResetTokenRow :=
  l.foldr insertByCreatedDesc []

/-- The candidate rows the reset query returns: unspent, unexpired rows
across all users, newest first, at most ten (`LIMIT 10`). -/
def resetCandidates (db : AuthDB) (now : Nat) : List ResetTokenRow :=
  (sortByCreatedDesc (db.resetTokens.filter
    (fun rt => rt.usedAt = none ∧ now < rt.expiresAt))).take 10

/-- Outcome of `resetPassword`. -/
inductive ResetOutcome where
  | invalidPassword (errors : List String)
  | tokenExpired
  | resetOk (userId : Nat)
deriving Repr, DecidableEq

/-- Model of `BuyerLoginService.resetPassword`.  `check` abstracts
`bcrypt.compare` of the raw token against a stored hash; `newHash` the
bcrypt digest of the new password; `sessTokenHash`/`refreshTok` the
session material created on success. -/
def resetPassword (check : String → String → Bool) (db : AuthDB) (now : Nat)
    (newHash sessTokenHash refreshTok : String) (token newPassword : String) :
    ResetOutcome × AuthDB :=
  let validation := validatePassword newPassword
  if ¬ validation.isValid then (.invalidPassword validation.errors, db)
  else
    match (resetCandidates db now).find? (fun rt => check token rt.tokenHash) with
    | none => (.tokenExpired, db)
    | some matchingToken =>
      let users' := db.users.map (fun u =>
        if u.id = matchingToken.userId then
          { u with
            passwordHash := some newHash
            loginAttempts := 0
            lockedUntil := none }
        else u)
      let tokens' := db.resetTokens.map (fun rt =>
        if rt.id = matchingToken.id then { rt with usedAt := some now } else rt)
      let sessions' := db.sessions.map (fun s =>
        if s.userId = matchingToken.userId then { s with deletedAt := some now } else s)
      let newSession : SessionRow :=
        ⟨matchingToken.userId, sessTokenHash, refreshTok, now + 30 * 24 * 3600, none⟩
      (.resetOk matchingToken.userId,
        { users := users', sessions := sessions' ++ [newSession], resetTokens := tokens' })

/-! ## Theorems

Supporting lemmas first, then for each claim `Cn` one theorem (with
counterexample and witness theorems where applicable). -/

/-- Two strings with prefixes of different lengths and the same tail
differ. -/
theorem append_ne_of_length_ne {a b : String} (p : String)
    (h : a.length ≠ b.length) : a ++ p ≠ b ++ p := by
  intro he
  have hl : (a ++ p).length = (b ++ p).length := by rw [he]
  rw [String.length_append, String.length_append] at hl
  omega

theorem otpKey_ne_rateKey (p : String) : otpKey p ≠ rateKey p :=
  append_ne_of_length_ne p (by decide)

theorem otpKey_ne_attemptsKey (p : String) : otpKey p ≠ attemptsKey p :=
  append_ne_of_length_ne p (by decide)

theorem otpKey_ne_lockoutKey (p : String) : otpKey p ≠ lockoutKey p :=
  append_ne_of_length_ne p (by decide)

theorem attemptsKey_ne_lockoutKey (p : String) : attemptsKey p ≠ lockoutKey p :=
  append_ne_of_length_ne p (by decide)

theorem kvLookup_del_self (kv : KV) (k : String) : kvLookup (kvDel kv k) k = none := by
  induction kv with
  | nil => rfl
  | cons hd tl ih =>
    obtain ⟨k', e⟩ := hd
    by_cases h : k' = k
    · simp [kvDel, h, ih]
    · simp [kvDel, kvLookup, h, ih]

theorem kvLookup_del_ne (kv : KV) {k' k : String} (h : k' ≠ k) :
    kvLookup (kvDel kv k') k = kvLookup kv k := by
  induction kv with
  | nil => rfl
  | cons hd tl ih =>
    obtain ⟨k'', e⟩ := hd
    by_cases h2 : k'' = k'
    · subst h2
      simp [kvDel, kvLookup, h, ih]
    · by_cases h3 : k'' = k
      · subst h3
        simp [kvDel, kvLookup, Ne.symm h, ih]
      · simp [kvDel, kvLookup, h2, h3, ih]

theorem kvLookup_set_self (kv : KV) (k : String) (e : VEntry) :
    kvLookup (kvSet kv k e) k = some e := by
  simp [kvSet, kvLookup]

theorem kvLookup_set_ne (kv : KV) {k' k : String} (e : VEntry) (h : k' ≠ k) :
    kvLookup (kvSet kv k' e) k = kvLookup kv k := by
  simp [kvSet, kvLookup, h, kvLookup_del_ne kv h]

theorem kvGet_congr {kv1 kv2 : KV} (now : Nat) {k : String}
    (h : kvLookup kv1 k = kvLookup kv2 k) : kvGet kv1 now k = kvGet kv2 now k := by
  simp [kvGet, h]

theorem kvGet_del_self (kv : KV) (now : Nat) (k : String) :
    kvGet (kvDel kv k) now k = none := by
  simp [kvGet, kvLookup_del_self]

/-- A `verifyOTP` run over a store with no stored OTP entry returns `false`
on every call and never changes the store. -/
theorem verifyRun_all_false (sha : String → String) (phone : String) (kv : KV)
    (h : kvLookup kv (otpKey phone) = none) (calls : List (Nat × String)) :
    (verifyRun sha phone kv calls).1.all (fun b => b = false) = true ∧
      (verifyRun sha phone kv calls).2 = kv := by
  induction calls with
  | nil => simp [verifyRun]
  | cons hd tl ih =>
    obtain ⟨t, otp⟩ := hd
    have hget : kvGet kv t (otpKey phone) = none := by simp [kvGet, h]
    simp only [verifyRun, verifyOTP, hget]
    simpa using ih

/-- Claim C4: `verifyOTP` is single-use.  A verification matching the
stored digest returns `true` and deletes the stored key, after which every
further `verifyOTP` call for that phone (with no intervening
`generateOTP`) returns `false` and leaves the store unchanged; a
verification with no matching stored digest returns `false` and does not
change the store. -/
theorem C4_verify_single_use :
    (∀ (sha : String → String) (now : Nat) (phone otp : String) (kv : KV) (h : String),
      kvGet kv now (otpKey phone) = some (.str h) → h = sha otp →
      verifyOTP sha now phone otp kv = (true, kvDel kv (otpKey phone)) ∧
      ∀ calls : List (Nat × String),
        (verifyRun sha phone (kvDel kv (otpKey phone)) calls).1.all
          (fun b => b = false) = true ∧
        (verifyRun sha phone (kvDel kv (otpKey phone)) calls).2 =
          kvDel kv (otpKey phone)) ∧
    (∀ (sha : String → String) (now : Nat) (phone otp : String) (kv : KV),
      (∀ h : String, kvGet kv now (otpKey phone) = some (.str h) → h ≠ sha otp) →
      verifyOTP sha now phone otp kv = (false, kv)) := by
  constructor
  · intro sha now phone otp kv h hget heq
    refine ⟨?_, ?_⟩
    · simp [verifyOTP, hget, heq]
    · intro calls
      exact verifyRun_all_false sha phone _ (kvLookup_del_self kv (otpKey phone)) calls
  · intro sha now phone otp kv hmis
    unfold verifyOTP
    cases hget : kvGet kv now (otpKey phone) with
    | none => rfl
    | some v =>
      cases v with
      | num n => rfl
      | str h => simp [hmis h hget]

/-- Number of successful records before a cutoff time (used to bound the
successes inside one lifetime of the rate counter). -/
def countBefore (recs : List GenRec) (hi : Nat) : Nat :=
  (recs.filter (fun r => r.otp.isSome && decide (r.time < hi))).length

theorem successCntIn_le_countBefore (recs : List GenRec) (lo hi : Nat) :
    successCntIn recs lo hi ≤ countBefore recs hi := by
  apply List.Sublist.length_le
  apply List.monotone_filter_right
  intro r h
  simp only [Bool.and_eq_true] at h ⊢
  exact ⟨h.1.1, h.2⟩

theorem kvExpire_of_lookup_live (kv : KV) {k : String} {e : VEntry} (now ttl : Nat)
    (h : kvLookup kv k = some e) (hlive : e.live now = true) :
    kvExpire kv now k ttl = kvSet kv k ⟨e.val, some (now + ttl)⟩ := by
  simp [kvExpire, h, hlive]

/-- When the increment observes 1, the new counter entry has value 1 and is
live (its expiry, when any, is inherited from a live entry). -/
theorem kvIncr_obs_one (kv : KV) (now : Nat) (k : String)
    (h : (kvIncr kv now k).1 = 1) :
    ∃ x, (kvIncr kv now k).2 = kvSet kv k ⟨.num 1, x⟩ ∧
      VEntry.live ⟨.num 1, x⟩ now = true := by
  unfold kvIncr at h ⊢
  cases hl : kvLookup kv k with
  | none => exact ⟨none, by simp [hl], rfl⟩
  | some e =>
    by_cases hlive : e.live now = true
    · cases hv : e.val with
      | num n =>
        simp [hl, hlive, hv] at h
        refine ⟨e.expiresAt, by simp [hl, hlive, hv, h], ?_⟩
        simpa [VEntry.live] using hlive
      | str s => exact ⟨none, by simp [hl, hlive, hv], rfl⟩
    · refine ⟨none, ?_, rfl⟩
      simp only [Bool.not_eq_true] at hlive
      simp [hl, hlive]

/-- On a 0→1 transition, `generateOTP` succeeds and leaves the rate counter
at value 1 with its TTL armed to 600 seconds from now. -/
theorem genOTP_opening (sha : String → String) (se so : Bool) (now code : Nat)
    (phone : String) (kv : KV) (h : genObserved now phone kv = 1) :
    (generateOTP sha se so now code phone kv).1.otp = some code ∧
    kvLookup (generateOTP sha se so now code phone kv).2 (rateKey phone) =
      some ⟨.num 1, some (now + 600)⟩ := by
  unfold genObserved at h
  obtain ⟨x, hst, hlive⟩ := kvIncr_obs_one kv now (rateKey phone) h
  have hexp : kvExpire (kvIncr kv now (rateKey phone)).2 now (rateKey phone)
      RATE_LIMIT_WINDOW_SECONDS =
      kvSet (kvIncr kv now (rateKey phone)).2 (rateKey phone) ⟨.num 1, some (now + 600)⟩ := by
    rw [hst]
    exact kvExpire_of_lookup_live _ now _ (kvLookup_set_self _ _ _) hlive
  have hlk : kvLookup (kvSetex (kvExpire (kvIncr kv now (rateKey phone)).2 now
      (rateKey phone) RATE_LIMIT_WINDOW_SECONDS) now (otpKey phone) OTP_TTL_SECONDS
      (.str (sha (toString code)))) (rateKey phone) =
      some ⟨.num 1, some (now + 600)⟩ := by
    rw [kvSetex, kvLookup_set_ne _ _ (otpKey_ne_rateKey phone), hexp, kvLookup_set_self]
  simp only [generateOTP, h, MAX_ATTEMPTS_PER_WINDOW]
  cases se <;> cases so <;> simp [hlk]

/-- A call that finds a live counter at value `n ≥ 1` observes `n + 1`,
keeps the counter's expiry, succeeds exactly when `n + 1 ≤ 3`, and never
rearms the TTL. -/
theorem genOTP_live (sha : String → String) (se so : Bool) (now code : Nat)
    (phone : String) (kv : KV) {n hi : Nat}
    (h : kvLookup kv (rateKey phone) = some ⟨.num n, some hi⟩)
    (hn : 1 ≤ n) (hlt : now < hi) :
    genObserved now phone kv = n + 1 ∧
    kvLookup (generateOTP sha se so now code phone kv).2 (rateKey phone) =
      some ⟨.num (n + 1), some hi⟩ ∧
    (generateOTP sha se so now code phone kv).1.otp =
      (if n + 1 ≤ 3 then some code else none) := by
  have hlive : VEntry.live ⟨.num n, some hi⟩ now = true := by
    simpa [VEntry.live] using hlt
  have hobs : genObserved now phone kv = n + 1 := by
    simp [genObserved, kvIncr, h, hlive]
  have hst : (kvIncr kv now (rateKey phone)).2 =
      kvSet kv (rateKey phone) ⟨.num (n + 1), some hi⟩ := by
    simp [kvIncr, h, hlive]
  refine ⟨hobs, ?_, ?_⟩ <;>
  · simp only [generateOTP, genObserved] at *
    rw [show (kvIncr kv now (rateKey phone)).1 = n + 1 from hobs]
    have hne1 : ¬ (n + 1 = 1) := by omega
    by_cases h3 : n + 1 ≤ 3
    · have : ¬ (n + 1 > MAX_ATTEMPTS_PER_WINDOW) := by
        simp [MAX_ATTEMPTS_PER_WINDOW]; omega
      cases se <;> cases so <;>
        simp [hne1, this, h3, kvSetex, hst,
          kvLookup_set_ne _ _ (otpKey_ne_rateKey phone), kvLookup_set_self]
    · have : n + 1 > MAX_ATTEMPTS_PER_WINDOW := by
        simp [MAX_ATTEMPTS_PER_WINDOW]; omega
      simp [hne1, this, h3, hst, kvLookup_set_self]

/-- Records produced by a run carry the call times; calls entirely at or
after the cutoff contribute no counted success. -/
theorem genRun_countBefore_zero (sha : String → String) (se so : Bool)
    (phone : String) : ∀ (calls : List (Nat × Nat)) (kv : KV) (hi : Nat),
    (∀ c ∈ calls, hi ≤ c.1) →
    countBefore (genRun sha se so phone kv calls).1 hi = 0 := by
  intro calls
  induction calls with
  | nil => intro kv hi _; simp [genRun, countBefore]
  | cons hd tl ih =>
    intro kv hi hall
    obtain ⟨t, code⟩ := hd
    have ht : hi ≤ t := hall (t, code) (by simp)
    have h1 : (decide (t < hi)) = false := by
      simp only [decide_eq_false_iff_not]
      omega
    have htl := ih (generateOTP sha se so t code phone kv).2 hi
      (fun c hc => hall c (List.mem_cons_of_mem _ hc))
    simp only [countBefore] at htl
    simp [genRun, countBefore, List.filter_cons, h1, htl]

/-- Core bound: starting from a store whose rate counter is at value
`n ≥ 1` with expiry `hi`, a run of later calls (times nondecreasing)
produces at most `3 - n` successes before `hi`. -/
theorem genRun_lifetime_bound (sha : String → String) (se so : Bool)
    (phone : String) : ∀ (calls : List (Nat × Nat)) (kv : KV) (n hi : Nat),
    (calls.map Prod.fst).Pairwise (· ≤ ·) →
    kvLookup kv (rateKey phone) = some ⟨.num n, some hi⟩ → 1 ≤ n →
    countBefore (genRun sha se so phone kv calls).1 hi ≤ 3 - n := by
  intro calls
  induction calls with
  | nil => intro kv n hi _ _ _; simp [genRun, countBefore]
  | cons hd tl ih =>
    intro kv n hi hpair hlk hn
    obtain ⟨t, code⟩ := hd
    simp only [List.map_cons, List.pairwise_cons] at hpair
    obtain ⟨hhead, htail⟩ := hpair
    by_cases hlt : t < hi
    · obtain ⟨hobs, hlk', hotp⟩ := genOTP_live sha se so t code phone kv hlk hn hlt
      have htailbound := ih (generateOTP sha se so t code phone kv).2 (n + 1) hi htail hlk' (by omega)
      simp only [countBefore] at htailbound ⊢
      simp only [genRun, List.filter_cons]
      by_cases h3 : n + 1 ≤ 3
      · simp only [hotp, h3, ite_true]
        simp only [Option.isSome_some, Bool.true_and]
        have hd1 : (decide (t < hi)) = true := by simpa using hlt
        simp only [hd1, ite_true, List.length_cons]
        omega
      · simp only [hotp, h3, ite_false]
        simp only [Option.isSome_none, Bool.false_and]
        simp only [Bool.false_eq_true, if_false]
        omega
    · have hzero := genRun_countBefore_zero sha se so phone tl
        (generateOTP sha se so t code phone kv).2 hi
        (fun c hc => le_trans (by omega) (hhead c.1 (List.mem_map_of_mem Prod.fst hc)))
      simp only [countBefore] at hzero ⊢
      have h1 : (decide (t < hi)) = false := by
        simp only [decide_eq_false_iff_not]
        omega
      simp [genRun, List.filter_cons, h1, hzero]

/-- Counterexample to C3 as stated: from a fresh store, five calls at
times 0, 598, 599, 600 and 601 all succeed, and the 600-second window
`[598, 1198)` contains four successful calls — more than 3. -/
theorem C3_sliding_window_counterexample :
    ((genRun (fun s => s) false false "9876543210" []
        [(0, 111111), (598, 222222), (599, 333333), (600, 444444), (601, 555555)]).1.all
      (fun r => r.otp.isSome)) = true ∧
    successCntIn (genRun (fun s => s) false false "9876543210" []
        [(0, 111111), (598, 222222), (599, 333333), (600, 444444), (601, 555555)]).1
      598 (598 + 600) = 4 := by
  decide

/-- Claim C3, amended: each `generateOTP` call atomically increments
`otp:rate:<phone>`; the 600-second TTL is armed exactly on the 0→1
transition; a call observing a counter above 3 returns `otp = none` and
`smsSent = false`; and at most 3 calls succeed within the 600-second
window that starts at each 0→1 transition (the lifetime of the counter
key).  The bound holds per counter lifetime, not for arbitrary sliding
600-second windows.  Runs compose, so the lifetime bound applies at any
opening inside a longer call sequence. -/
theorem C3_rate_limit_amended :
    (∀ (sha : String → String) (se so : Bool) (now code : Nat) (phone : String) (kv : KV),
      genObserved now phone kv > 3 →
      (generateOTP sha se so now code phone kv).1.otp = none ∧
      (generateOTP sha se so now code phone kv).1.smsSent = false) ∧
    (∀ (sha : String → String) (se so : Bool) (now code : Nat) (phone : String) (kv : KV),
      genObserved now phone kv = 1 →
      kvLookup (generateOTP sha se so now code phone kv).2 (rateKey phone) =
        some ⟨.num 1, some (now + 600)⟩) ∧
    (∀ (sha : String → String) (se so : Bool) (phone : String) (kv : KV)
      (t code : Nat) (rest : List (Nat × Nat)),
      (((t, code) :: rest).map Prod.fst).Pairwise (· ≤ ·) →
      genObserved t phone kv = 1 →
      successCntIn (genRun sha se so phone kv ((t, code) :: rest)).1 t (t + 600) ≤ 3) ∧
    (∀ (sha : String → String) (se so : Bool) (phone : String) (kv : KV)
      (l1 l2 : List (Nat × Nat)),
      genRun sha se so phone kv (l1 ++ l2) =
        ((genRun sha se so phone kv l1).1 ++
          (genRun sha se so phone (genRun sha se so phone kv l1).2 l2).1,
         (genRun sha se so phone (genRun sha se so phone kv l1).2 l2).2)) := by
  refine ⟨?_, ?_, ?_, ?_⟩
  · intro sha se so now code phone kv hgt
    unfold genObserved at hgt
    have hne1 : ¬ ((kvIncr kv now (rateKey phone)).1 = 1) := by omega
    have hgt' : (kvIncr kv now (rateKey phone)).1 > MAX_ATTEMPTS_PER_WINDOW := by
      simpa [MAX_ATTEMPTS_PER_WINDOW] using hgt
    simp [generateOTP, hne1, hgt']
  · intro sha se so now code phone kv h
    exact (genOTP_opening sha se so now code phone kv h).2
  · intro sha se so phone kv t code rest hpair hobs
    obtain ⟨hotp, hlk⟩ := genOTP_opening sha se so t code phone kv hobs
    simp only [List.map_cons, List.pairwise_cons] at hpair
    have htail := genRun_lifetime_bound sha se so phone rest
      (generateOTP sha se so t code phone kv).2 1 (t + 600) hpair.2 hlk (le_refl 1)
    have hmono := successCntIn_le_countBefore
      (genRun sha se so phone (generateOTP sha se so t code phone kv).2 rest).1 t (t + 600)
    simp only [successCntIn, countBefore] at hmono htail
    simp only [genRun, successCntIn, List.filter_cons]
    have hpass : (((⟨t, genObserved t phone kv, (generateOTP sha se so t code phone kv).1.otp,
        (generateOTP sha se so t code phone kv).1.smsSent⟩ : GenRec).otp.isSome &&
        decide (t ≤ t) && decide (t < t + 600)) = true) := by
      simp [hotp]
    simp only [hpass, if_true, List.length_cons]
    omega
  · intro sha se so phone kv l1 l2
    induction l1 generalizing kv with
    | nil => simp [genRun]
    | cons hd tl ih =>
      obtain ⟨t, code⟩ := hd
      simp [genRun, ih]

/-- Witness for C3 (amended) at concrete inputs. -/
theorem C3_rate_limit_amended_witness :
    genObserved 0 "9876543210" [] = 1 ∧
    successCntIn (genRun (fun s => s) false false "9876543210" [] [(0, 111111)]).1
      0 (0 + 600) ≤ 3 := by
  refine ⟨by decide, ?_⟩
  exact C3_rate_limit_amended.2.2.1 (fun s => s) false false "9876543210" [] 0 111111 []
    (by simp) (by decide)

/-- A `VerifyLoginOtp` call that is not locked out and fails OTP
verification reduces to `recordFailedAttempt` on the unchanged store. -/
theorem verifyLogin_fail_step (sha : String → String) (kv : KV)
    (phone otp : String) (t : Nat) (hp : phone ≠ "") (ho : otp ≠ "")
    (hlock : kvGet kv t (lockoutKey phone) = none)
    (hmis : ∀ h : String, kvGet kv t (otpKey phone) = some (.str h) → h ≠ sha otp) :
    verifyLoginOtp sha true t phone otp kv =
      (if (recordFailedAttempt t phone kv).1.isLocked then
        .accountLocked (recordFailedAttempt t phone kv).1.lockedUntil
       else .invalidOtp (recordFailedAttempt t phone kv).1.remainingAttempts,
       (recordFailedAttempt t phone kv).2) := by
  have hvfail : verifyOTP sha t phone otp kv = (false, kv) := by
    unfold verifyOTP
    cases hget : kvGet kv t (otpKey phone) with
    | none => rfl
    | some v =>
      cases v with
      | num n => rfl
      | str h => simp [hmis h hget]
  simp [verifyLoginOtp, hp, ho, getLockoutStatus, hlock, lockoutNotLocked, hvfail]
  split <;> rfl

/-- First failure on a fresh counter: attempts become 1 and the TTL is
armed. -/
theorem recordFailed_fresh (t : Nat) (phone : String) (kv : KV)
    (h : kvLookup kv (attemptsKey phone) = none) :
    recordFailedAttempt t phone kv =
      ({ isLocked := false, lockedUntil := none, remainingAttempts := 2 },
       kvSet (kvSet kv (attemptsKey phone) ⟨.num 1, none⟩) (attemptsKey phone)
         ⟨.num 1, some (t + 1800)⟩) := by
  simp [recordFailedAttempt, kvIncr, h, kvExpire, kvLookup_set_self, VEntry.live,
    MAX_FAILED_ATTEMPTS, LOGIN_ATTEMPT_TTL_SECONDS, LOCKOUT_DURATION_SECONDS]

/-- A later failure below the threshold: the counter increments, keeps its
TTL, and no lockout is written. -/
theorem recordFailed_live (t : Nat) (phone : String) (kv : KV) {n e : Nat}
    (h : kvLookup kv (attemptsKey phone) = some ⟨.num n, some e⟩)
    (hlt : t < e) (hn : 1 ≤ n) (h3 : n + 1 < 3) :
    recordFailedAttempt t phone kv =
      ({ isLocked := false, lockedUntil := none,
         remainingAttempts := (3 : Int) - ((n + 1 : Nat) : Int) },
       kvSet kv (attemptsKey phone) ⟨.num (n + 1), some e⟩) := by
  have hlive : VEntry.live ⟨.num n, some e⟩ t = true := by simpa [VEntry.live] using hlt
  have hne1 : ¬ (n + 1 = 1) := by omega
  have hnotlock : ¬ (n + 1 ≥ MAX_FAILED_ATTEMPTS) := by
    simp only [MAX_FAILED_ATTEMPTS]
    omega
  simp [recordFailedAttempt, kvIncr, h, hlive, hne1, hnotlock, MAX_FAILED_ATTEMPTS]
  omega

/-- The failure that reaches the threshold: the lockout key is written to
`now + 1800` with TTL 1800. -/
theorem recordFailed_locks (t : Nat) (phone : String) (kv : KV) {n e : Nat}
    (h : kvLookup kv (attemptsKey phone) = some ⟨.num n, some e⟩)
    (hlt : t < e) (h3 : n + 1 ≥ 3) :
    recordFailedAttempt t phone kv =
      ({ isLocked := true, lockedUntil := some (t + 1800), remainingAttempts := 0 },
       kvSetex (kvSet kv (attemptsKey phone) ⟨.num (n + 1), some e⟩) t
         (lockoutKey phone) 1800 (.num (t + 1800))) := by
  have hlive : VEntry.live ⟨.num n, some e⟩ t = true := by simpa [VEntry.live] using hlt
  have hne1 : ¬ (n + 1 = 1) := by omega
  have hlock : (n + 1 ≥ MAX_FAILED_ATTEMPTS) := by
    simp only [MAX_FAILED_ATTEMPTS]
    omega
  simp [recordFailedAttempt, kvIncr, h, hlive, hne1, hlock,
    LOCKOUT_DURATION_SECONDS]

/-- Claim C2: (1) three consecutive failed `VerifyLoginOtp` calls within
1800 seconds (on a phone with no prior attempts or lockout) return
`remainingAttempts` 2 and 1 and then `ACCOUNT_LOCKED`, and write the
lockout key as `t3 + 1800` with TTL 1800 (expiry exactly `t3 + 1800`);
(2) while the stored lockout instant is in the future every call returns
`ACCOUNT_LOCKED` without touching the store, regardless of the submitted
code and of whether the user exists; (3) a successful verification
deletes both the attempts key and the lockout key. -/
theorem C2_login_lockout :
    (∀ (sha : String → String) (kv0 : KV) (phone o1 o2 o3 : String) (t1 t2 t3 : Nat),
      phone ≠ "" → o1 ≠ "" → o2 ≠ "" → o3 ≠ "" →
      t1 ≤ t2 → t2 ≤ t3 → t3 < t1 + 1800 →
      kvLookup kv0 (lockoutKey phone) = none →
      kvLookup kv0 (attemptsKey phone) = none →
      (∀ h : String, kvGet kv0 t1 (otpKey phone) = some (.str h) → h ≠ sha o1) →
      (∀ h : String, kvGet kv0 t2 (otpKey phone) = some (.str h) → h ≠ sha o2) →
      (∀ h : String, kvGet kv0 t3 (otpKey phone) = some (.str h) → h ≠ sha o3) →
      (verifyLoginOtp sha true t1 phone o1 kv0).1 = .invalidOtp 2 ∧
      (verifyLoginOtp sha true t2 phone o2
        (verifyLoginOtp sha true t1 phone o1 kv0).2).1 = .invalidOtp 1 ∧
      (verifyLoginOtp sha true t3 phone o3
        (verifyLoginOtp sha true t2 phone o2
          (verifyLoginOtp sha true t1 phone o1 kv0).2).2).1 =
        .accountLocked (some (t3 + 1800)) ∧
      kvLookup (verifyLoginOtp sha true t3 phone o3
        (verifyLoginOtp sha true t2 phone o2
          (verifyLoginOtp sha true t1 phone o1 kv0).2).2).2 (lockoutKey phone) =
        some ⟨.num (t3 + 1800), some (t3 + 1800)⟩) ∧
    (∀ (sha : String → String) (userFound : Bool) (now : Nat) (phone otp : String)
      (kv : KV) (T : Nat), phone ≠ "" → otp ≠ "" →
      kvGet kv now (lockoutKey phone) = some (.num T) → now < T →
      verifyLoginOtp sha userFound now phone otp kv = (.accountLocked (some T), kv)) ∧
    (∀ (sha : String → String) (now : Nat) (phone otp : String) (kv : KV),
      phone ≠ "" → otp ≠ "" →
      kvGet kv now (lockoutKey phone) = none →
      kvGet kv now (otpKey phone) = some (.str (sha otp)) →
      (verifyLoginOtp sha true now phone otp kv).1 = .loginOk ∧
      kvLookup (verifyLoginOtp sha true now phone otp kv).2 (attemptsKey phone) = none ∧
      kvLookup (verifyLoginOtp sha true now phone otp kv).2 (lockoutKey phone) = none) := by
  refine ⟨?_, ?_, ?_⟩
  · intro sha kv0 phone o1 o2 o3 t1 t2 t3 hp ho1 ho2 ho3 h12 h23 hwin hlk0 hak0 hm1 hm2 hm3
    -- call 1
    have hlget1 : kvGet kv0 t1 (lockoutKey phone) = none := by simp [kvGet, hlk0]
    have hc1 := verifyLogin_fail_step sha kv0 phone o1 t1 hp ho1 hlget1 hm1
    rw [recordFailed_fresh t1 phone kv0 hak0] at hc1
    set kv1 := kvSet (kvSet kv0 (attemptsKey phone) ⟨.num 1, none⟩) (attemptsKey phone)
      ⟨.num 1, some (t1 + 1800)⟩ with hkv1
    have hr1 : verifyLoginOtp sha true t1 phone o1 kv0 = (.invalidOtp 2, kv1) := by
      simpa using hc1
    -- facts about kv1
    have hak1 : kvLookup kv1 (attemptsKey phone) = some ⟨.num 1, some (t1 + 1800)⟩ :=
      kvLookup_set_self _ _ _
    have hlk1 : kvLookup kv1 (lockoutKey phone) = none := by
      rw [hkv1, kvLookup_set_ne _ _ (attemptsKey_ne_lockoutKey phone),
        kvLookup_set_ne _ _ (attemptsKey_ne_lockoutKey phone)]
      exact hlk0
    have hot1 : kvLookup kv1 (otpKey phone) = kvLookup kv0 (otpKey phone) := by
      rw [hkv1, kvLookup_set_ne, kvLookup_set_ne] <;>
        exact fun hEq => otpKey_ne_attemptsKey phone hEq.symm
    -- call 2
    have hlget2 : kvGet kv1 t2 (lockoutKey phone) = none := by simp [kvGet, hlk1]
    have hm2' : ∀ h : String, kvGet kv1 t2 (otpKey phone) = some (.str h) → h ≠ sha o2 := by
      intro h hg
      exact hm2 h (by rw [← kvGet_congr t2 hot1]; exact hg)
    have hc2 := verifyLogin_fail_step sha kv1 phone o2 t2 hp ho2 hlget2 hm2'
    rw [recordFailed_live t2 phone kv1 hak1 (by omega) (by omega) (by omega)] at hc2
    set kv2 := kvSet kv1 (attemptsKey phone) ⟨.num 2, some (t1 + 1800)⟩ with hkv2
    have hr2 : verifyLoginOtp sha true t2 phone o2 kv1 = (.invalidOtp 1, kv2) := by
      simpa using hc2
    -- facts about kv2
    have hak2 : kvLookup kv2 (attemptsKey phone) = some ⟨.num 2, some (t1 + 1800)⟩ :=
      kvLookup_set_self _ _ _
    have hlk2 : kvLookup kv2 (lockoutKey phone) = none := by
      rw [hkv2, kvLookup_set_ne _ _ (attemptsKey_ne_lockoutKey phone)]
      exact hlk1
    have hot2 : kvLookup kv2 (otpKey phone) = kvLookup kv0 (otpKey phone) := by
      rw [hkv2, kvLookup_set_ne]
      · exact hot1
      · exact fun hEq => otpKey_ne_attemptsKey phone hEq.symm
    -- call 3
    have hlget3 : kvGet kv2 t3 (lockoutKey phone) = none := by simp [kvGet, hlk2]
    have hm3' : ∀ h : String, kvGet kv2 t3 (otpKey phone) = some (.str h) → h ≠ sha o3 := by
      intro h hg
      exact hm3 h (by rw [← kvGet_congr t3 hot2]; exact hg)
    have hc3 := verifyLogin_fail_step sha kv2 phone o3 t3 hp ho3 hlget3 hm3'
    rw [recordFailed_locks t3 phone kv2 hak2 (by omega) (by omega)] at hc3
    have hr3 : verifyLoginOtp sha true t3 phone o3 kv2 =
        (.accountLocked (some (t3 + 1800)),
         kvSetex (kvSet kv2 (attemptsKey phone) ⟨.num 3, some (t1 + 1800)⟩) t3
           (lockoutKey phone) 1800 (.num (t3 + 1800))) := by
      simpa using hc3
    refine ⟨by rw [hr1], ?_, ?_, ?_⟩
    · rw [hr1]
      rw [hr2]
    · rw [hr1, hr2, hr3]
    · rw [hr1, hr2, hr3]
      simp only [kvSetex]
      exact kvLookup_set_self _ _ _
  · intro sha userFound now phone otp kv T hp ho hget hlt
    have hTgt : T > now := hlt
    simp [verifyLoginOtp, hp, ho, getLockoutStatus, hget, hTgt]
  · intro sha now phone otp kv hp ho hlock hmatch
    have hvok : verifyOTP sha now phone otp kv = (true, kvDel kv (otpKey phone)) := by
      simp [verifyOTP, hmatch]
    refine ⟨?_, ?_, ?_⟩ <;>
      simp only [verifyLoginOtp, hp, ho, getLockoutStatus, hlock, lockoutNotLocked, hvok] <;>
      simp [clearFailedAttempts, kvLookup_del_self,
        kvLookup_del_ne _ (attemptsKey_ne_lockoutKey phone),
        kvLookup_del_ne _ (Ne.symm (attemptsKey_ne_lockoutKey phone))]

/-- Witness for C2 at concrete inputs: three wrong codes at times 0, 10,
20 lock the (fresh) phone until second 1820. -/
theorem C2_login_lockout_witness :
    (verifyLoginOtp (fun s => s) true 20 "9876543210" "000000"
      (verifyLoginOtp (fun s => s) true 10 "9876543210" "000000"
        (verifyLoginOtp (fun s => s) true 0 "9876543210" "000000" []).2).2).1 =
      .accountLocked (some (20 + 1800)) := by
  exact (C2_login_lockout.1 (fun s => s) [] "9876543210" "000000" "000000" "000000"
    0 10 20 (by decide) (by decide) (by decide) (by decide)
    (by omega) (by omega) (by omega) rfl rfl
    (by intro h hg; simp [kvGet, kvLookup] at hg)
    (by intro h hg; simp [kvGet, kvLookup] at hg)
    (by intro h hg; simp [kvGet, kvLookup] at hg)).2.2.1

/-- Counterexample to C1 as stated: in an organization whose memberships
are an INACTIVE ADMIN (user 100) and the only ACTIVE ADMIN (user 200), a
call to `updateMemberRole` by caller 100 targeting user 200 succeeds
instead of failing with `LAST_ADMIN`, and leaves the organization with
zero ACTIVE ADMIN memberships. -/
theorem C1_last_admin_counterexample :
    (updateMemberRole
      { users := []
        memberships :=
          [⟨1, 1, 100, BuyerTeamRole.ADMIN, TeamMemberStatus.INACTIVE⟩,
           ⟨2, 1, 200, BuyerTeamRole.ADMIN, TeamMemberStatus.ACTIVE⟩]
        invitations := []
        roleChanges := [] } 1 200 BuyerTeamRole.FINANCE_USER 100).1 =
      TeamOpResult.roleUpdated BuyerTeamRole.ADMIN BuyerTeamRole.FINANCE_USER ∧
    countActiveAdmins (updateMemberRole
      { users := []
        memberships :=
          [⟨1, 1, 100, BuyerTeamRole.ADMIN, TeamMemberStatus.INACTIVE⟩,
           ⟨2, 1, 200, BuyerTeamRole.ADMIN, TeamMemberStatus.ACTIVE⟩]
        invitations := []
        roleChanges := [] } 1 200 BuyerTeamRole.FINANCE_USER 100).2.memberships 1 = 0 := by
  decide

/-- Claim C1, amended: `deactivateMember` and `deleteMember` targeting the
organization's only ACTIVE ADMIN fail with `LAST_ADMIN` and leave the
state unchanged, for every caller holding an ADMIN-role membership (of any
status) distinct from the target; `updateMemberRole` enforces the
last-admin guard only when the caller is the target (self-demotion fails
with `LAST_ADMIN`), while a distinct caller whose membership has role
ADMIN — even an INACTIVE one — demotes the last ACTIVE ADMIN successfully,
dropping the organization's ACTIVE-ADMIN count to zero. -/
theorem C1_last_admin_amended :
    (∀ (db : TeamDB) (org memberId requesterId : Nat) (rm tm : TeamMembership),
      findByUserAndOrg db.memberships requesterId org = some rm →
      rm.role = BuyerTeamRole.ADMIN →
      memberId ≠ requesterId →
      findByUserAndOrg db.memberships memberId org = some tm →
      tm.role = BuyerTeamRole.ADMIN → tm.status = TeamMemberStatus.ACTIVE →
      countActiveAdmins db.memberships org = 1 →
      deactivateMember db org memberId requesterId = (.lastAdmin, db)) ∧
    (∀ (db : TeamDB) (org memberId requesterId : Nat) (rm tm : TeamMembership),
      findByUserAndOrg db.memberships requesterId org = some rm →
      rm.role = BuyerTeamRole.ADMIN →
      memberId ≠ requesterId →
      findByUserAndOrg db.memberships memberId org = some tm →
      tm.role = BuyerTeamRole.ADMIN → tm.status = TeamMemberStatus.ACTIVE →
      countActiveAdmins db.memberships org = 1 →
      deleteMember db org memberId requesterId = (.lastAdmin, db)) ∧
    (∀ (db : TeamDB) (org memberId : Nat) (newRole : BuyerTeamRole) (tm : TeamMembership),
      findByUserAndOrg db.memberships memberId org = some tm →
      tm.role = BuyerTeamRole.ADMIN → tm.status = TeamMemberStatus.ACTIVE →
      countActiveAdmins db.memberships org = 1 →
      newRole ≠ BuyerTeamRole.ADMIN →
      updateMemberRole db org memberId newRole memberId = (.lastAdmin, db)) ∧
    (∀ (db : TeamDB) (org memberId changedById : Nat) (newRole : BuyerTeamRole)
      (cm tm : TeamMembership),
      (db.memberships.map (fun m => m.id)).Nodup →
      findByUserAndOrg db.memberships changedById org = some cm →
      cm.role = BuyerTeamRole.ADMIN →
      memberId ≠ changedById →
      findByUserAndOrg db.memberships memberId org = some tm →
      tm.role = BuyerTeamRole.ADMIN → tm.status = TeamMemberStatus.ACTIVE →
      countActiveAdmins db.memberships org = 1 →
      newRole ≠ BuyerTeamRole.ADMIN →
      (updateMemberRole db org memberId newRole changedById).1 =
        .roleUpdated BuyerTeamRole.ADMIN newRole ∧
      countActiveAdmins
        (updateMemberRole db org memberId newRole changedById).2.memberships org = 0) := by
  refine ⟨?_, ?_, ?_, ?_⟩
  · intro db org memberId requesterId rm tm hreq hrole hne htgt htrole _htstat hcount
    simp [deactivateMember, hreq, hrole, hne, htgt, htrole, isLastAdmin, hcount]
  · intro db org memberId requesterId rm tm hreq hrole hne htgt htrole _htstat hcount
    simp [deleteMember, hreq, hrole, hne, htgt, htrole, isLastAdmin, hcount]
  · intro db org memberId newRole tm htgt htrole _htstat hcount hnew
    simp [updateMemberRole, htgt, htrole, isLastAdmin, hcount, hnew]
  · intro db org memberId changedById newRole cm tm hnodup hcm hcmrole hne htm htmrole
      htmstat hcount hnew
    have htm_mem : tm ∈ db.memberships := List.mem_of_find?_eq_some htm
    have htm_pred : tm.userId = memberId ∧ tm.buyerOrgId = org := by
      have := List.find?_some htm
      simpa using this
    have hfsome : (db.memberships.find? (fun m => m.id = tm.id)).isSome :=
      List.find?_isSome.mpr ⟨tm, htm_mem, by simp⟩
    obtain ⟨ex, hex⟩ := Option.isSome_iff_exists.mp hfsome
    have hex_mem : ex ∈ db.memberships := List.mem_of_find?_eq_some hex
    have hex_id : ex.id = tm.id := by
      have := List.find?_some hex
      simpa using this
    have hex_eq : ex = tm :=
      List.inj_on_of_nodup_map hnodup hex_mem htm_mem hex_id
    have hguard : ¬ (memberId = changedById ∧ tm.role = BuyerTeamRole.ADMIN ∧
        newRole ≠ BuyerTeamRole.ADMIN ∧ isLastAdmin db.memberships memberId org = true) :=
      fun hc => hne hc.1
    have hresult : updateMemberRole db org memberId newRole changedById =
        (.roleUpdated tm.role newRole,
         { db with
           memberships := db.memberships.map
             (fun m => if m.id = tm.id then { m with role := newRole } else m)
           roleChanges := db.roleChanges ++ [⟨tm.id, tm.role, newRole, changedById⟩] }) := by
      simp only [updateMemberRole, hcm, hcmrole]
      simp only [ne_eq, not_true_eq_false, if_false, htm]
      rw [if_neg hguard]
      simp only [updateRole, hex, hex_eq]
    constructor
    · rw [hresult, htmrole]
    · rw [hresult]
      simp only [countActiveAdmins]
      have hfilter : (db.memberships.map
          (fun m => if m.id = tm.id then { m with role := newRole } else m)).filter
          (fun m => decide (m.buyerOrgId = org ∧ m.role = BuyerTeamRole.ADMIN ∧
            m.status = TeamMemberStatus.ACTIVE)) = [] := by
        apply List.filter_eq_nil_iff.mpr
        intro a ha
        obtain ⟨m, hm, rfl⟩ := List.mem_map.mp ha
        by_cases hid : m.id = tm.id
        · simp only [hid, if_true]
          simp [hnew]
        · simp only [hid, if_false]
          simp only [decide_eq_true_eq, not_and]
          intro horg hrole2 hstat
          have hm_filt : m ∈ db.memberships.filter
              (fun m => decide (m.buyerOrgId = org ∧ m.role = BuyerTeamRole.ADMIN ∧
                m.status = TeamMemberStatus.ACTIVE)) := by
            simp [List.mem_filter, hm, horg, hrole2, hstat]
          have htm_filt : tm ∈ db.memberships.filter
              (fun m => decide (m.buyerOrgId = org ∧ m.role = BuyerTeamRole.ADMIN ∧
                m.status = TeamMemberStatus.ACTIVE)) := by
            simp [List.mem_filter, htm_mem, htm_pred.2, htmrole, htmstat]
          have hlen : (db.memberships.filter
              (fun m => decide (m.buyerOrgId = org ∧ m.role = BuyerTeamRole.ADMIN ∧
                m.status = TeamMemberStatus.ACTIVE))).length = 1 := hcount
          obtain ⟨a, hone⟩ := List.length_eq_one.mp hlen
          rw [hone] at hm_filt htm_filt
          simp only [List.mem_singleton] at hm_filt htm_filt
          exact hid (by rw [hm_filt, htm_filt])
      rw [hfilter]
      rfl

/-- Witness for C1 (amended) at a concrete organization. -/
theorem C1_last_admin_amended_witness :
    deactivateMember
      { users := []
        memberships :=
          [⟨1, 1, 100, BuyerTeamRole.ADMIN, TeamMemberStatus.INACTIVE⟩,
           ⟨2, 1, 200, BuyerTeamRole.ADMIN, TeamMemberStatus.ACTIVE⟩]
        invitations := []
        roleChanges := [] } 1 200 100 =
      (.lastAdmin,
       { users := []
         memberships :=
           [⟨1, 1, 100, BuyerTeamRole.ADMIN, TeamMemberStatus.INACTIVE⟩,
            ⟨2, 1, 200, BuyerTeamRole.ADMIN, TeamMemberStatus.ACTIVE⟩]
         invitations := []
         roleChanges := [] }) :=
  C1_last_admin_amended.1
    { users := []
      memberships :=
        [⟨1, 1, 100, BuyerTeamRole.ADMIN, TeamMemberStatus.INACTIVE⟩,
         ⟨2, 1, 200, BuyerTeamRole.ADMIN, TeamMemberStatus.ACTIVE⟩]
      invitations := []
      roleChanges := [] } 1 200 100
    ⟨1, 1, 100, BuyerTeamRole.ADMIN, TeamMemberStatus.INACTIVE⟩
    ⟨2, 1, 200, BuyerTeamRole.ADMIN, TeamMemberStatus.ACTIVE⟩
    (by decide) (by decide) (by decide) (by decide) (by decide) (by decide) (by decide)

/-- Counterexample to C7 as stated: with a pending invitation for
`(org 1, "a@b.com")` on file, a caller (user 99) who holds no membership
at all — hence is not an ACTIVE ADMIN — receives `DUPLICATE_EMAIL`, not
`UNAUTHORIZED`: the duplicate check runs before the authorization check. -/
theorem C7_invite_counterexample :
    (inviteTeamMember
      { users := [⟨10, "a@b.com"⟩]
        memberships := []
        invitations :=
          [⟨1, 1, "a@b.com", "9876543210", BuyerTeamRole.FINANCE_USER, "h", 1000, 5, false⟩]
        roleChanges := [] } 0 2 "h2" 1 "a@b.com" "9111111111"
      BuyerTeamRole.FINANCE_USER 99).1 = InviteResult.duplicateEmail := by
  decide

/-- Claim C7, amended: `inviteTeamMember` runs the duplicate-email check
first, so any caller — authorized or not — receives `DUPLICATE_EMAIL` when
a membership or pending invitation exists for the address; the
authorization check that follows only requires the inviter's membership to
have role ADMIN, regardless of its status, so an inviter whose ADMIN
membership is INACTIVE can still create an invitation; a non-duplicate
request from a caller without an ADMIN-role membership fails with
`UNAUTHORIZED`. -/
theorem C7_invite_amended :
    (∀ (db : TeamDB) (now invId : Nat) (tokenHash : String) (org : Nat)
      (email mobile : String) (role : BuyerTeamRole) (invitedById : Nat),
      isDuplicateEmail db org email = true →
      inviteTeamMember db now invId tokenHash org email mobile role invitedById =
        (.duplicateEmail, db)) ∧
    (∀ (db : TeamDB) (now invId : Nat) (tokenHash : String) (org : Nat)
      (email mobile : String) (role : BuyerTeamRole) (invitedById : Nat)
      (inviter : TeamMembership),
      isDuplicateEmail db org email = false →
      findByUserAndOrg db.memberships invitedById org = some inviter →
      inviter.role = BuyerTeamRole.ADMIN →
      inviteTeamMember db now invId tokenHash org email mobile role invitedById =
        (.invited ⟨invId, org, email, mobile, role, tokenHash, now + 24 * 3600,
            invitedById, false⟩,
         { db with invitations := db.invitations ++
            [⟨invId, org, email, mobile, role, tokenHash, now + 24 * 3600,
              invitedById, false⟩] })) ∧
    (∀ (db : TeamDB) (now invId : Nat) (tokenHash : String) (org : Nat)
      (email mobile : String) (role : BuyerTeamRole) (invitedById : Nat),
      isDuplicateEmail db org email = false →
      (findByUserAndOrg db.memberships invitedById org = none ∨
        ∃ inviter, findByUserAndOrg db.memberships invitedById org = some inviter ∧
          inviter.role ≠ BuyerTeamRole.ADMIN) →
      inviteTeamMember db now invId tokenHash org email mobile role invitedById =
        (.unauthorized, db)) := by
  refine ⟨?_, ?_, ?_⟩
  · intro db now invId tokenHash org email mobile role invitedById hdup
    simp [inviteTeamMember, hdup]
  · intro db now invId tokenHash org email mobile role invitedById inviter hdup hfind hrole
    cases role <;> simp [inviteTeamMember, hdup, hfind, hrole]
  · intro db now invId tokenHash org email mobile role invitedById hdup hbad
    rcases hbad with hnone | ⟨inviter, hfind, hrole⟩
    · cases role <;> simp [inviteTeamMember, hdup, hnone]
    · cases role <;> simp [inviteTeamMember, hdup, hfind, hrole]

/-- Witness for C7 (amended): an inviter whose ADMIN membership is
INACTIVE creates an invitation. -/
theorem C7_invite_amended_witness :
    inviteTeamMember
      { users := []
        memberships := [⟨1, 1, 100, BuyerTeamRole.ADMIN, TeamMemberStatus.INACTIVE⟩]
        invitations := []
        roleChanges := [] } 0 2 "h2" 1 "new@b.com" "9111111111"
      BuyerTeamRole.FINANCE_USER 100 =
      (.invited ⟨2, 1, "new@b.com", "9111111111", BuyerTeamRole.FINANCE_USER, "h2",
          0 + 24 * 3600, 100, false⟩,
       { users := []
         memberships := [⟨1, 1, 100, BuyerTeamRole.ADMIN, TeamMemberStatus.INACTIVE⟩]
         invitations := [⟨2, 1, "new@b.com", "9111111111", BuyerTeamRole.FINANCE_USER, "h2",
            0 + 24 * 3600, 100, false⟩]
         roleChanges := [] }) := by
  have h := C7_invite_amended.2.1
    { users := []
      memberships := [⟨1, 1, 100, BuyerTeamRole.ADMIN, TeamMemberStatus.INACTIVE⟩]
      invitations := []
      roleChanges := [] } 0 2 "h2" 1 "new@b.com" "9111111111"
    BuyerTeamRole.FINANCE_USER 100
    ⟨1, 1, 100, BuyerTeamRole.ADMIN, TeamMemberStatus.INACTIVE⟩
    (by decide) (by decide) (by decide)
  simpa using h

/-- Adding vehicle photo documents never touches the profiles table. -/
theorem addVehicleDocuments_profiles (db : HaulerDB) (haulerId : Nat) (req : Step2Request) :
    (addVehicleDocuments db haulerId req).profiles = db.profiles := by
  unfold addVehicleDocuments
  have hfold : ∀ (urls : List String) (d : HaulerDB),
      (urls.foldl (fun acc url =>
        addDocument acc ⟨haulerId, "VEHICLE_PHOTO_OTHER", url, "vehicle_other.jpg"⟩)
        d).profiles = d.profiles := by
    intro urls
    induction urls with
    | nil => intro d; rfl
    | cons hd tl ih => intro d; rw [List.foldl_cons, ih]; rfl
  rw [hfold]
  rfl

/-- Counterexample to C5 as stated: a hauler profile still at
`currentStep = 1` (vehicle step never done) accepts `step3LicenseInfo`
with a valid token and valid license inputs — the step is not required to
be one step behind, so step 2 is skipped and `currentStep` jumps to 3. -/
theorem C5_step_skip_counterexample :
    ((step3LicenseInfo 2025 10 11
      { profiles := [⟨7, 70, VehicleTypeE.BIKE, "TEMP-70", 0, "TEMP", "1970-01-01",
          1, false, some "T", HaulerStatus.IN_PROGRESS, none, none, none⟩]
        documents := []
        users := [⟨70, "9000011111", "Ravi"⟩] }
      ⟨"T", "KA0120231234567", "2030-01-01", "u1", "u2"⟩).1.success = true) ∧
    ((step3LicenseInfo 2025 10 11
      { profiles := [⟨7, 70, VehicleTypeE.BIKE, "TEMP-70", 0, "TEMP", "1970-01-01",
          1, false, some "T", HaulerStatus.IN_PROGRESS, none, none, none⟩]
        documents := []
        users := [⟨70, "9000011111", "Ravi"⟩] }
      ⟨"T", "KA0120231234567", "2030-01-01", "u1", "u2"⟩).1.stepCompleted = some 3) ∧
    ((step3LicenseInfo 2025 10 11
      { profiles := [⟨7, 70, VehicleTypeE.BIKE, "TEMP-70", 0, "TEMP", "1970-01-01",
          1, false, some "T", HaulerStatus.IN_PROGRESS, none, none, none⟩]
        documents := []
        users := [⟨70, "9000011111", "Ravi"⟩] }
      ⟨"T", "KA0120231234567", "2030-01-01", "u1", "u2"⟩).2.profiles.map
        (fun p => p.currentStep) = [3]) := by
  decide

/-- Claim C5, amended: `step2VehicleInfo` and `step3LicenseInfo` advance
only when the registration token resolves to a profile and all inputs pass
the validators (otherwise they fail and leave the state unchanged), but
they do not require the profile to be one step behind: each sets
`currentStep` to 2 resp. 3 unconditionally, whatever the previous value,
so steps can be skipped or redone at any time while the token is live. -/
theorem C5_steps_amended :
    (∀ (ty tm td : Int) (db : HaulerDB) (req : Step3Request) (profile : HaulerProfileRec),
      findByRegistrationToken db req.registrationToken = some profile →
      (validateDLNumber req.dlNumber).valid = true →
      (validateDLExpiry ty tm td req.dlExpiry).valid = true →
      req.dlFrontUrl ≠ "" → req.dlBackUrl ≠ "" →
      (step3LicenseInfo ty tm td db req).1 =
        { success := true, message := "License details saved. Continue to payment.",
          stepCompleted := some 3 } ∧
      ∀ p ∈ (step3LicenseInfo ty tm td db req).2.profiles,
        p.id = profile.id → p.currentStep = 3) ∧
    (∀ (ty tm td : Int) (db : HaulerDB) (req : Step3Request),
      findByRegistrationToken db req.registrationToken = none →
      step3LicenseInfo ty tm td db req =
        ({ success := false, message := "Registration session not found" }, db)) ∧
    (∀ (ty tm td : Int) (db : HaulerDB) (req : Step3Request) (profile : HaulerProfileRec),
      findByRegistrationToken db req.registrationToken = some profile →
      (validateDLNumber req.dlNumber).valid = false →
      step3LicenseInfo ty tm td db req =
        ({ success := false, message := (validateDLNumber req.dlNumber).message }, db)) ∧
    (∀ (db : HaulerDB) (req : Step2Request) (profile : HaulerProfileRec)
      (typed : VehicleTypeE),
      findByRegistrationToken db req.registrationToken = some profile →
      (validateVehicleType req.vehicleType).1.valid = true →
      (validateVehicleType req.vehicleType).2 = some typed →
      (validateVehicleNumber req.vehicleNumber).valid = true →
      vehicleNumberExists db ((validateVehicleNumber req.vehicleNumber).normalizedValue.getD "") =
        false →
      (validatePayloadCapacity typed req.payloadCapacityKg).valid = true →
      req.photoFrontUrl ≠ "" → req.photoSideUrl ≠ "" →
      (step2VehicleInfo db req).1 =
        { success := true, message := "Vehicle details saved. Continue to license.",
          stepCompleted := some 2 } ∧
      ∀ p ∈ (step2VehicleInfo db req).2.profiles,
        p.id = profile.id → p.currentStep = 2) ∧
    (∀ (db : HaulerDB) (req : Step2Request),
      findByRegistrationToken db req.registrationToken = none →
      step2VehicleInfo db req =
        ({ success := false, message := "Registration session not found" }, db)) := by
  refine ⟨?_, ?_, ?_, ?_, ?_⟩
  · intro ty tm td db req profile hfind hdl hexp hfront hback
    have hstep : step3LicenseInfo ty tm td db req =
        ({ success := true, message := "License details saved. Continue to payment.",
           stepCompleted := some 3 },
         addLicenseDocuments
           (updateLicenseInfo db profile.id
             ((validateDLNumber req.dlNumber).normalizedValue.getD "") req.dlExpiry)
           profile.id req) := by
      simp [step3LicenseInfo, hfind, hdl, hexp, hfront, hback]
    refine ⟨by rw [hstep], ?_⟩
    rw [hstep]
    intro p hp hpid
    simp only [addLicenseDocuments, addDocument, updateLicenseInfo] at hp
    obtain ⟨m, _hm, rfl⟩ := List.mem_map.mp hp
    by_cases hid : m.id = profile.id
    · simp [hid]
    · rw [if_neg hid] at hpid ⊢
      exact absurd hpid hid
  · intro ty tm td db req hfind
    simp [step3LicenseInfo, hfind]
  · intro ty tm td db req profile hfind hdl
    simp [step3LicenseInfo, hfind, hdl]
  · intro db req profile typed hfind htype htyped hvnum hexists hcap hfront hside
    have hstep : step2VehicleInfo db req =
        ({ success := true, message := "Vehicle details saved. Continue to license.",
           stepCompleted := some 2 },
         addVehicleDocuments
           (updateVehicleInfo db profile.id typed
             ((validateVehicleNumber req.vehicleNumber).normalizedValue.getD "")
             req.payloadCapacityKg)
           profile.id req) := by
      simp [step2VehicleInfo, hfind, htype, htyped, hvnum, hexists, hcap, hfront, hside]
    refine ⟨by rw [hstep], ?_⟩
    rw [hstep]
    intro p hp hpid
    rw [addVehicleDocuments_profiles] at hp
    simp only [updateVehicleInfo] at hp
    obtain ⟨m, _hm, rfl⟩ := List.mem_map.mp hp
    by_cases hid : m.id = profile.id
    · simp [hid]
    · rw [if_neg hid] at hpid ⊢
      exact absurd hpid hid
  · intro db req hfind
    simp [step2VehicleInfo, hfind]

/-- Witness for C5 (amended) on the concrete step-1 profile. -/
theorem C5_steps_amended_witness :
    (step3LicenseInfo 2025 10 11
      { profiles := [⟨7, 70, VehicleTypeE.BIKE, "TEMP-70", 0, "TEMP", "1970-01-01",
          1, false, some "T", HaulerStatus.IN_PROGRESS, none, none, none⟩]
        documents := []
        users := [⟨70, "9000011111", "Ravi"⟩] }
      ⟨"T", "KA0120231234567", "2030-01-01", "u1", "u2"⟩).1 =
      { success := true, message := "License details saved. Continue to payment.",
        stepCompleted := some 3 } :=
  (C5_steps_amended.1 2025 10 11
    { profiles := [⟨7, 70, VehicleTypeE.BIKE, "TEMP-70", 0, "TEMP", "1970-01-01",
        1, false, some "T", HaulerStatus.IN_PROGRESS, none, none, none⟩]
      documents := []
      users := [⟨70, "9000011111", "Ravi"⟩] }
    ⟨"T", "KA0120231234567", "2030-01-01", "u1", "u2"⟩
    ⟨7, 70, VehicleTypeE.BIKE, "TEMP-70", 0, "TEMP", "1970-01-01",
      1, false, some "T", HaulerStatus.IN_PROGRESS, none, none, none⟩
    (by decide) (by decide) (by decide) (by decide) (by decide)).1

/-- Counterexample to C6 as stated: hauler profile 5 is already ACTIVE
(approved by admin 1 at time 10), yet a second `verifyHauler` APPROVE call
by admin 2 succeeds — it does not return an INVALID_STATE outcome — and
dispatches a second approval notification while overwriting the verifier
fields. -/
theorem C6_verify_counterexample :
    ((verifyHauler
      { profiles := [⟨5, 50, VehicleTypeE.BIKE, "KA-01-AB-1234", 18, "KA0120231234567",
          "2030-01-01", 4, true, none, HaulerStatus.ACTIVE, some 1, some 10, none⟩]
        documents := []
        users := [⟨50, "9000011111", "Ravi"⟩] } 100 "5" VerifyAction.APPROVE "" 2).1.success =
      true) ∧
    ((verifyHauler
      { profiles := [⟨5, 50, VehicleTypeE.BIKE, "KA-01-AB-1234", 18, "KA0120231234567",
          "2030-01-01", 4, true, none, HaulerStatus.ACTIVE, some 1, some 10, none⟩]
        documents := []
        users := [⟨50, "9000011111", "Ravi"⟩] } 100 "5" VerifyAction.APPROVE "" 2).2.2.length =
      1) ∧
    ((verifyHauler
      { profiles := [⟨5, 50, VehicleTypeE.BIKE, "KA-01-AB-1234", 18, "KA0120231234567",
          "2030-01-01", 4, true, none, HaulerStatus.ACTIVE, some 1, some 10, none⟩]
        documents := []
        users := [⟨50, "9000011111", "Ravi"⟩] } 100 "5" VerifyAction.APPROVE "" 2).2.1.profiles.map
      (fun p => p.verifiedById) = [some 2]) := by
  decide

/-- Claim C6, amended: `verifyHauler` performs the APPROVE or REJECT
update on any existing profile regardless of its current
`verificationStatus` — there is no INVALID_STATE guard anywhere on the
path — recording verifier and timestamp (APPROVE clears the rejection
reason, REJECT stores it) and dispatching one notification SMS per call,
so repeated calls repeat both the transition and the notification. -/
theorem C6_verify_amended :
    (∀ (db : HaulerDB) (now : Nat) (idStr reason : String) (vby : Nat) (n : Int)
      (p : HaulerProfileRec) (u : HaulerUserRec),
      parseIntJS idStr = some n →
      db.profiles.find? (fun q => q.id = n.toNat) = some p →
      db.users.find? (fun w => w.id = p.userId) = some u →
      verifyHauler db now idStr .APPROVE reason vby =
        ({ success := true, message := "Hauler approved successfully",
           newStatus := some "ACTIVE" },
         { db with profiles := db.profiles.map (fun q =>
            if q.id = n.toNat then
              { p with
                verificationStatus := HaulerStatus.ACTIVE
                verifiedById := some vby
                verifiedAt := some now
                rejectionReason := none }
            else q) },
         [⟨u.phone, "Congratulations " ++ u.name ++
            "! Your CropFresh Hauler account is now active."⟩])) ∧
    (∀ (db : HaulerDB) (now : Nat) (idStr reason : String) (vby : Nat) (n : Int)
      (p : HaulerProfileRec) (u : HaulerUserRec),
      parseIntJS idStr = some n →
      (jsTrim reason).length ≠ 0 →
      db.profiles.find? (fun q => q.id = n.toNat) = some p →
      db.users.find? (fun w => w.id = p.userId) = some u →
      verifyHauler db now idStr .REJECT reason vby =
        ({ success := true, message := "Hauler registration rejected",
           newStatus := some "REJECTED" },
         { db with profiles := db.profiles.map (fun q =>
            if q.id = n.toNat then
              { p with
                verificationStatus := HaulerStatus.REJECTED
                verifiedById := some vby
                verifiedAt := some now
                rejectionReason := some reason }
            else q) },
         [⟨u.phone, "Your CropFresh Hauler registration was not approved. Reason: " ++
            reason⟩])) := by
  constructor
  · intro db now idStr reason vby n p u hparse hfind huser
    simp [verifyHauler, hparse, repoApproveHauler, hfind, huser]
  · intro db now idStr reason vby n p u hparse hreason hfind huser
    simp [verifyHauler, hparse, hreason, repoRejectHauler, hfind, huser]

/-- Witness for C6 (amended): re-approving an already-ACTIVE profile. -/
theorem C6_verify_amended_witness :
    ((verifyHauler
      { profiles := [⟨5, 50, VehicleTypeE.BIKE, "KA-01-AB-1234", 18, "KA0120231234567",
          "2030-01-01", 4, true, none, HaulerStatus.ACTIVE, some 1, some 10, none⟩]
        documents := []
        users := [⟨50, "9000011111", "Ravi"⟩] } 200 "5" VerifyAction.APPROVE "" 7).1.newStatus =
      some "ACTIVE") ∧
    ((verifyHauler
      { profiles := [⟨5, 50, VehicleTypeE.BIKE, "KA-01-AB-1234", 18, "KA0120231234567",
          "2030-01-01", 4, true, none, HaulerStatus.ACTIVE, some 1, some 10, none⟩]
        documents := []
        users := [⟨50, "9000011111", "Ravi"⟩] } 200 "5" VerifyAction.APPROVE "" 7).2.2.length =
      1) := by
  have h := C6_verify_amended.1
    { profiles := [⟨5, 50, VehicleTypeE.BIKE, "KA-01-AB-1234", 18, "KA0120231234567",
        "2030-01-01", 4, true, none, HaulerStatus.ACTIVE, some 1, some 10, none⟩]
      documents := []
      users := [⟨50, "9000011111", "Ravi"⟩] } 200 "5" "" 7 5
    ⟨5, 50, VehicleTypeE.BIKE, "KA-01-AB-1234", 18, "KA0120231234567",
      "2030-01-01", 4, true, none, HaulerStatus.ACTIVE, some 1, some 10, none⟩
    ⟨50, "9000011111", "Ravi"⟩ (by decide) (by decide) (by decide)
  refine ⟨?_, ?_⟩ <;> (rw [h]; try rfl)

/-- Counterexample to C10 as stated: the stored placeholder DL number
`"TEMP"` (length 4) is returned to the display path entirely unmasked —
no asterisks at all — because `maskDLNumber` passes strings of length at
most 6 through unchanged, so the masking does not apply to every stored
DL number regardless of length. -/
theorem C10_mask_counterexample :
    maskDLNumber "TEMP" = "TEMP" ∧
    ("TEMP".data.count '*' = 0) ∧
    (toPendingHauler
      { profiles := []
        documents := []
        users := [⟨70, "9000011111", "Ravi"⟩] }
      ⟨7, 70, VehicleTypeE.BIKE, "TEMP-70", 0, "TEMP", "1970-01-01",
        1, false, some "T", HaulerStatus.IN_PROGRESS, none, none, none⟩).dlNumber = "TEMP" := by
  decide

/-- Claim C10, amended: on the admin read paths the displayed DL number is
`maskDLNumber` of the stored value while storage stays in the clear, and
the mask is first 2 characters, then one asterisk per hidden character,
then the last 4 — but only for stored values longer than 6 characters;
values of length at most 6 are displayed unchanged, with no asterisks. -/
theorem C10_mask_amended :
    (∀ dl : String, dl.length ≤ 6 → maskDLNumber dl = dl) ∧
    (∀ dl : String, 6 < dl.length →
      (maskDLNumber dl).data =
        dl.data.take 2 ++ List.replicate (dl.length - 6) '*' ++
          dl.data.drop (dl.length - 4) ∧
      (maskDLNumber dl).length = dl.length) ∧
    (∀ (db : HaulerDB) (h : HaulerProfileRec),
      (toPendingHauler db h).dlNumber = maskDLNumber h.dlNumber ∧
      (toPendingHauler db h).vehicleNumber = h.vehicleNumber) := by
  refine ⟨?_, ?_, ?_⟩
  · intro dl h
    simp [maskDLNumber, h]
  · intro dl h
    have hne : ¬ (dl.length ≤ 6) := by omega
    constructor
    · simp only [maskDLNumber, hne, if_false]
      rfl
    · simp only [maskDLNumber, hne, if_false]
      show (String.mk _).length = dl.length
      simp only [String.length]
      show (List.length (_ ++ _)) = dl.data.length
      simp only [List.length_append, List.length_take, List.length_replicate,
        List.length_drop, String.length] at *
      omega
  · intro db h
    exact ⟨rfl, rfl⟩

/-- Witness for C10 (amended) at concrete DL numbers of both regimes. -/
theorem C10_mask_amended_witness :
    maskDLNumber "AB1234" = "AB1234" ∧
    (maskDLNumber "KA012020123456").data =
      "KA012020123456".data.take 2 ++ List.replicate ("KA012020123456".length - 6) '*' ++
        "KA012020123456".data.drop ("KA012020123456".length - 4) :=
  ⟨C10_mask_amended.1 "AB1234" (by decide),
   (C10_mask_amended.2.1 "KA012020123456" (by decide)).1⟩

/-- Inserting into a list kept in descending creation order yields a
permutation of consing. -/
theorem insertByCreatedDesc_perm (rt : ResetTokenRow) (l : List ResetTokenRow) :
    List.Perm (insertByCreatedDesc rt l) (rt :: l) := by
  induction l with
  | nil => exact List.Perm.refl _
  | cons x xs ih =>
    by_cases h : rt.createdAt ≥ x.createdAt
    · simp [insertByCreatedDesc, h]
    · simp only [insertByCreatedDesc, h, if_false]
      exact (List.Perm.cons x ih).trans (List.Perm.swap rt x xs)

/-- The candidate ordering is a permutation of its input. -/
theorem sortByCreatedDesc_perm (l : List ResetTokenRow) :
    List.Perm (sortByCreatedDesc l) l := by
  induction l with
  | nil => exact List.Perm.refl _
  | cons x xs ih =>
    exact (insertByCreatedDesc_perm x (sortByCreatedDesc xs)).trans (List.Perm.cons x ih)

/-- Membership in an insertion. -/
theorem mem_insertByCreatedDesc {a rt : ResetTokenRow} {l : List ResetTokenRow} :
    a ∈ insertByCreatedDesc rt l ↔ a = rt ∨ a ∈ l :=
  ⟨fun h => by
    have := (insertByCreatedDesc_perm rt l).mem_iff.mp h
    simpa using this,
   fun h => (insertByCreatedDesc_perm rt l).mem_iff.mpr (by simpa using h)⟩

/-- Insertion preserves the descending-`createdAt` pairwise order. -/
theorem insertByCreatedDesc_sorted (rt : ResetTokenRow) (l : List ResetTokenRow)
    (h : l.Pairwise (fun a b => b.createdAt ≤ a.createdAt)) :
    (insertByCreatedDesc rt l).Pairwise (fun a b => b.createdAt ≤ a.createdAt) := by
  induction l with
  | nil => simp [insertByCreatedDesc]
  | cons x xs ih =>
    simp only [List.pairwise_cons] at h
    by_cases hge : rt.createdAt ≥ x.createdAt
    · simp only [insertByCreatedDesc, hge, if_true]
      refine List.pairwise_cons.mpr ⟨?_, List.pairwise_cons.mpr ⟨h.1, h.2⟩⟩
      intro b hb
      rcases List.mem_cons.mp hb with rfl | hb
      · exact hge
      · exact le_trans (h.1 b hb) hge
    · simp only [insertByCreatedDesc, hge, if_false]
      refine List.pairwise_cons.mpr ⟨?_, ih h.2⟩
      intro b hb
      rcases mem_insertByCreatedDesc.mp hb with rfl | hb
      · omega
      · exact h.1 b hb

/-- The candidate ordering is sorted by `createdAt` descending. -/
theorem sortByCreatedDesc_sorted (l : List ResetTokenRow) :
    (sortByCreatedDesc l).Pairwise (fun a b => b.createdAt ≤ a.createdAt) := by
  induction l with
  | nil => simp [sortByCreatedDesc]
  | cons x xs ih => exact insertByCreatedDesc_sorted x (sortByCreatedDesc xs) ih

/-- Claim C8: with a valid new password, the presented raw token is
compared only against the (at most ten) newest unspent, unexpired reset
rows across all users; when a valid, unexpired, unspent token row exists
but lies outside those ten and the token matches none of them,
`resetPassword` returns TOKEN_EXPIRED and the whole state — password
hashes, lockout fields, sessions and token rows — is unchanged. -/
theorem C8_reset_limit :
    ∀ (check : String → String → Bool) (db : AuthDB) (now : Nat)
      (newHash sessTokenHash refreshTok token newPassword : String)
      (rt0 : ResetTokenRow),
      (validatePassword newPassword).isValid = true →
      rt0 ∈ db.resetTokens → rt0.usedAt = none → now < rt0.expiresAt →
      check token rt0.tokenHash = true →
      rt0 ∉ resetCandidates db now →
      (∀ rt ∈ resetCandidates db now, check token rt.tokenHash = false) →
      resetPassword check db now newHash sessTokenHash refreshTok token newPassword =
        (.tokenExpired, db) ∧
      (resetCandidates db now).length ≤ 10 := by
  intro check db now newHash sessTokenHash refreshTok token newPassword rt0
    hvalid _hmem _hunused _hunexp _hmatch _hout hnomatch
  have hfind : (resetCandidates db now).find? (fun rt => check token rt.tokenHash) = none :=
    List.find?_eq_none.mpr (fun rt hrt => by simp [hnomatch rt hrt])
  refine ⟨?_, ?_⟩
  · simp [resetPassword, hvalid, hfind]
  · exact le_trans (List.length_take_le 10 _) (by simp)

/-- Witness for C8: eleven live tokens; the presented token matches only
the oldest row, which the LIMIT-10 window excludes. -/
theorem C8_reset_limit_witness :
    resetPassword (fun t h => t = h)
      { users := [⟨1, some "oldhash", 2, none⟩]
        sessions := [⟨1, "th", "rt", 5000, none⟩]
        resetTokens :=
          [⟨1, 1, "h1", 4000, none, 1⟩, ⟨2, 1, "h2", 4000, none, 2⟩, ⟨3, 1, "h3", 4000, none, 3⟩,
           ⟨4, 1, "h4", 4000, none, 4⟩, ⟨5, 1, "h5", 4000, none, 5⟩, ⟨6, 1, "h6", 4000, none, 6⟩,
           ⟨7, 1, "h7", 4000, none, 7⟩, ⟨8, 1, "h8", 4000, none, 8⟩, ⟨9, 1, "h9", 4000, none, 9⟩,
           ⟨10, 1, "h10", 4000, none, 10⟩, ⟨11, 1, "h11", 4000, none, 11⟩] }
      100 "nh" "sth" "rt2" "h1" "GoodPass1!" =
      (.tokenExpired,
       { users := [⟨1, some "oldhash", 2, none⟩]
         sessions := [⟨1, "th", "rt", 5000, none⟩]
         resetTokens :=
          [⟨1, 1, "h1", 4000, none, 1⟩, ⟨2, 1, "h2", 4000, none, 2⟩, ⟨3, 1, "h3", 4000, none, 3⟩,
           ⟨4, 1, "h4", 4000, none, 4⟩, ⟨5, 1, "h5", 4000, none, 5⟩, ⟨6, 1, "h6", 4000, none, 6⟩,
           ⟨7, 1, "h7", 4000, none, 7⟩, ⟨8, 1, "h8", 4000, none, 8⟩, ⟨9, 1, "h9", 4000, none, 9⟩,
           ⟨10, 1, "h10", 4000, none, 10⟩, ⟨11, 1, "h11", 4000, none, 11⟩] }) :=
  (C8_reset_limit (fun t h => t = h)
    { users := [⟨1, some "oldhash", 2, none⟩]
      sessions := [⟨1, "th", "rt", 5000, none⟩]
      resetTokens :=
        [⟨1, 1, "h1", 4000, none, 1⟩, ⟨2, 1, "h2", 4000, none, 2⟩, ⟨3, 1, "h3", 4000, none, 3⟩,
         ⟨4, 1, "h4", 4000, none, 4⟩, ⟨5, 1, "h5", 4000, none, 5⟩, ⟨6, 1, "h6", 4000, none, 6⟩,
         ⟨7, 1, "h7", 4000, none, 7⟩, ⟨8, 1, "h8", 4000, none, 8⟩, ⟨9, 1, "h9", 4000, none, 9⟩,
         ⟨10, 1, "h10", 4000, none, 10⟩, ⟨11, 1, "h11", 4000, none, 11⟩] }
    100 "nh" "sth" "rt2" "h1" "GoodPass1!" ⟨1, 1, "h1", 4000, none, 1⟩
    (by decide) (by decide) (by decide) (by decide) (by decide) (by decide)
    (by decide)).1

/-- The 32-bit seeds whose residue mod 900000 equals `r` form the image of
an initial segment under `k ↦ 900000 k + r`; the segment has one extra
element exactly when `r < 2^32 mod 900000 = 167296`. -/
theorem seeds_mod_image (r : Nat) (hr : r < 900000) :
    (Finset.range (2 ^ 32)).filter (fun s => s % 900000 = r) =
      (Finset.range (if r < 167296 then 4773 else 4772)).image
        (fun k => 900000 * k + r) := by
  have h32 : (2 : Nat) ^ 32 = 4294967296 := by norm_num
  ext n
  simp only [Finset.mem_filter, Finset.mem_image, Finset.mem_range, h32]
  constructor
  · rintro ⟨hn, hmod⟩
    refine ⟨n / 900000, ?_, ?_⟩
    · split <;> omega
    · omega
  · rintro ⟨k, hk, rfl⟩
    constructor
    · split at hk <;> omega
    · omega

/-- Exact preimage count of each PIN under the 32-bit seed draw. -/
theorem pinPreimageCount_formula :
    ∀ p : Nat, 100000 ≤ p → p ≤ 999999 →
      pinPreimageCount p = if p < 267296 then 4773 else 4772 := by
  intro p h1 h2
  have hr : p - 100000 < 900000 := by omega
  have hfeq : (Finset.range (2 ^ 32)).filter (fun s => generateTemporaryPin s = p) =
      (Finset.range (2 ^ 32)).filter (fun s => s % 900000 = p - 100000) := by
    apply Finset.filter_congr
    intro s _hs
    simp only [generateTemporaryPin]
    omega
  have hinj : Function.Injective (fun k : Nat => 900000 * k + (p - 100000)) := by
    intro a b hab
    simp only at hab
    omega
  unfold pinPreimageCount
  rw [hfeq, seeds_mod_image (p - 100000) hr,
    Finset.card_image_of_injective _ hinj, Finset.card_range]
  split_ifs <;> omega

/-- Counterexample to C9 as stated: the PIN values are not produced by the
same number of 32-bit seeds — 100000 has 4773 preimages while 999999 has
4772 (modulo bias: 2^32 is not a multiple of 900000). -/
theorem C9_pin_counterexample :
    pinPreimageCount 100000 = 4773 ∧ pinPreimageCount 999999 = 4772 ∧
    pinPreimageCount 100000 ≠ pinPreimageCount 999999 := by
  have h1 := pinPreimageCount_formula 100000 (by norm_num) (by norm_num)
  have h2 := pinPreimageCount_formula 999999 (by norm_num) (by norm_num)
  rw [if_pos (by norm_num)] at h1
  rw [if_neg (by norm_num)] at h2
  refine ⟨h1, h2, ?_⟩
  rw [h1, h2]
  omega

/-- Claim C9, amended: every temporary PIN lies in `[100000, 999999]`
(exactly 6 decimal digits), but the map from uniformly random 32-bit seeds
is not uniform: PINs below 267296 have 4773 preimages, the rest 4772
(2^32 = 4772 · 900000 + 167296). -/
theorem C9_pin_amended :
    (∀ seed : Nat, 100000 ≤ generateTemporaryPin seed ∧
      generateTemporaryPin seed ≤ 999999) ∧
    (∀ p : Nat, 100000 ≤ p → p ≤ 999999 →
      pinPreimageCount p = if p < 267296 then 4773 else 4772) := by
  constructor
  · intro seed
    unfold generateTemporaryPin
    have := Nat.mod_lt seed (show 0 < 900000 by norm_num)
    omega
  · exact pinPreimageCount_formula

/-- Witness for C9 (amended) at concrete seed and PIN values. -/
theorem C9_pin_amended_witness :
    100000 ≤ generateTemporaryPin 5 ∧ generateTemporaryPin 5 ≤ 999999 ∧
    pinPreimageCount 123456 = 4773 := by
  refine ⟨(C9_pin_amended.1 5).1, (C9_pin_amended.1 5).2, ?_⟩
  have h := C9_pin_amended.2 123456 (by norm_num) (by norm_num)
  rw [if_pos (by norm_num)] at h
  exact h

/-- Witness for C4 at a concrete store and hash function. -/
theorem C4_verify_single_use_witness :
    kvGet [(otpKey "9876543210", ⟨.str "123456", some 600⟩)] 0 (otpKey "9876543210") =
        some (.str "123456") ∧
      verifyOTP (fun s => s) 0 "9876543210" "123456"
          [(otpKey "9876543210", ⟨.str "123456", some 600⟩)] =
        (true, kvDel [(otpKey "9876543210", ⟨.str "123456", some 600⟩)] (otpKey "9876543210")) := by
  refine ⟨by decide, ?_⟩
  exact (C4_verify_single_use.1 (fun s => s) 0 "9876543210" "123456"
    [(otpKey "9876543210", ⟨.str "123456", some 600⟩)] "123456" (by decide) (by decide)).1
